import Mathlib

set_option maxHeartbeats 1000000

/-!
Verification of the MIHAC credit-inference engine (core/validator.py,
core/scorer.py, core/engine.py, validation/metrics.py,
validation/calibrator.py) against its natural-language specification.

The embedding models Python values as a small inductive type `PyVal`
(ints, floats as exact rationals, strings, None), Python dictionaries
as association lists with first-match lookup, and a caught Python
exception as an `Option`/`Except` failure.  `round(x, n)` is modelled
as nearest-integer rounding on rationals; no claim below depends on the
behaviour at exact rounding ties, so the difference between CPython's
round-half-to-even on binary floats and the model is immaterial.
CPython's textual rendering of float values inside a few diagnostic
messages (group D of the validator) is abstracted by a plain rational
renderer; no claim inspects those particular strings.
-/

namespace Mihac

/-- Model of the Python values that flow through the MIHAC core:
`int`, `float` (as an exact rational), `str`, and `None`. -/
inductive PyVal where
  | vInt : Int → PyVal
  | vFloat : Rat → PyVal
  | vStr : String → PyVal
  | vNone : PyVal
deriving DecidableEq

/-- A Python dict with string keys, as an association list; lookup
returns the first binding, matching dict-key uniqueness. -/
def PyDict := List (String × PyVal)

instance : DecidableEq PyDict := by
  unfold PyDict
  infer_instance

/-- Numeric view of a value: Python `int` and `float` both count. -/
def toNumQ : PyVal → Option Rat
  | .vInt n => some (n : Rat)
  | .vFloat q => some q
  | .vStr _ => none
  | .vNone => none

/-- `isinstance(v, int)`. -/
def esEntero : PyVal → Bool
  | .vInt _ => true
  | _ => false

/-- `isinstance(v, (int, float))`. -/
def esNumero : PyVal → Bool
  | .vInt _ => true
  | .vFloat _ => true
  | _ => false

/-- `isinstance(v, str)`. -/
def esTexto : PyVal → Bool
  | .vStr _ => true
  | _ => false

/-- `v is None`. -/
def esNone : PyVal → Bool
  | .vNone => true
  | _ => false

/-- Python `==` on the modelled values: numeric kinds compare by value,
strings by content, `None` only equals `None`; cross-kind comparison is
`False`.  Total, never raises. -/
def pyEq : PyVal → PyVal → Bool
  | .vInt m, .vInt n => m == n
  | .vInt m, .vFloat q => (m : Rat) == q
  | .vFloat q, .vInt n => q == (n : Rat)
  | .vFloat p, .vFloat q => p == q
  | .vStr s, .vStr t => s == t
  | .vNone, .vNone => true
  | _, _ => false

/-- Lexicographic comparison of character lists, mirroring Python's
code-point string ordering. -/
def charListLt : List Char → List Char → Bool
  | [], [] => false
  | [], _ :: _ => true
  | _ :: _, [] => false
  | a :: as, b :: bs =>
      if a < b then true
      else if b < a then false
      else charListLt as bs

/-- Python `s < t` on strings (code-point lexicographic order). -/
def strLt (s t : String) : Bool :=
  charListLt s.toList t.toList

/-- Python `<`: defined between two numbers or two strings, a
`TypeError` (`none`) otherwise. -/
def pyLt (a b : PyVal) : Option Bool :=
  match a, b with
  | .vStr s, .vStr t => some (strLt s t)
  | _, _ =>
      match toNumQ a, toNumQ b with
      | some x, some y => some (decide (x < y))
      | _, _ => none

/-- Python `<=`, same domain as `pyLt`. -/
def pyLe (a b : PyVal) : Option Bool :=
  match a, b with
  | .vStr s, .vStr t => some (strLt s t || s == t)
  | _, _ =>
      match toNumQ a, toNumQ b with
      | some x, some y => some (decide (x ≤ y))
      | _, _ => none

/-- Python `>`, same domain as `pyLt`. -/
def pyGt (a b : PyVal) : Option Bool :=
  match a, b with
  | .vStr s, .vStr t => some (strLt t s)
  | _, _ =>
      match toNumQ a, toNumQ b with
      | some x, some y => some (decide (y < x))
      | _, _ => none

/-- Python `>=`, same domain as `pyLt`. -/
def pyGe (a b : PyVal) : Option Bool :=
  match a, b with
  | .vStr s, .vStr t => some (strLt t s || s == t)
  | _, _ =>
      match toNumQ a, toNumQ b with
      | some x, some y => some (decide (y ≤ x))
      | _, _ => none

/-- Python `*` on the modelled values: numeric product, string
repetition with an int, a `TypeError` (`none`) otherwise. -/
def pyMul (a b : PyVal) : Option PyVal :=
  match a, b with
  | .vInt m, .vInt n => some (.vInt (m * n))
  | .vInt m, .vFloat q => some (.vFloat ((m : Rat) * q))
  | .vFloat q, .vInt n => some (.vFloat (q * (n : Rat)))
  | .vFloat p, .vFloat q => some (.vFloat (p * q))
  | .vStr s, .vInt n => some (.vStr (String.join (List.replicate n.toNat s)))
  | .vInt n, .vStr s => some (.vStr (String.join (List.replicate n.toNat s)))
  | _, _ => none

/-- `datos.get(k, dflt)`. -/
def pyGetD (d : PyDict) (k : String) (dflt : PyVal) : PyVal :=
  (d.lookup k).getD dflt

/-- `datos.get(k)` (default `None`). -/
def pyGet (d : PyDict) (k : String) : PyVal :=
  pyGetD d k .vNone

/-- `k in datos`. -/
def pyMem (d : PyDict) (k : String) : Bool :=
  (d.lookup k).isSome

/-- Kernel-computable floor of a rational. -/
def qfloor (q : Rat) : Int := q.num / q.den

theorem qfloor_eq (q : Rat) : qfloor q = ⌊q⌋ := by
  rw [Rat.floor_def]; rfl

/-- `round(q, n)` at `n` decimal places, as nearest-integer rounding on
rationals (tie behaviour immaterial to the claims, see module header). -/
def roundTo (n : Nat) (q : Rat) : Rat :=
  ((qfloor (q * (10 : Rat) ^ n + 1/2)) : Rat) / (10 : Rat) ^ n

theorem roundTo_eq_round (n : Nat) (q : Rat) :
    roundTo n q = ((round (q * (10 : Rat) ^ n) : Int) : Rat) / (10 : Rat) ^ n := by
  rw [roundTo, qfloor_eq, round_eq]

/-- Python `int(x)` on a number: truncation toward zero. -/
def pyTrunc (q : Rat) : Int :=
  if 0 ≤ q then ⌊q⌋ else -⌊-q⌋

/-- Python `str.strip()` (whitespace at both ends removed). -/
def pyStrip (s : String) : String :=
  String.mk (((s.toList.dropWhile Char.isWhitespace).reverse.dropWhile
    Char.isWhitespace).reverse)

/-- Rendering of a rational inside a diagnostic message; abstracts
CPython numeric formatting (no claim depends on these strings). -/
def qRepr (q : Rat) : String :=
  if q.den == 1 then toString q.num
  else toString q.num ++ "/" ++ toString q.den

/-- Python `str(v)`; the float case is abstracted by `qRepr`. -/
def pyStr : PyVal → String
  | .vInt n => toString n
  | .vFloat q => qRepr q
  | .vStr s => s
  | .vNone => "None"

/-- `type(v).__name__`. -/
def pyTypeName : PyVal → String
  | .vInt _ => "int"
  | .vFloat _ => "float"
  | .vStr _ => "str"
  | .vNone => "NoneType"

/-!  Validator (core/validator.py)  -/

/-- `CAMPOS_REQUERIDOS`. -/
def CAMPOS_REQUERIDOS : List String :=
  ["edad", "ingreso_mensual", "total_deuda_actual",
   "historial_crediticio", "antiguedad_laboral",
   "numero_dependientes", "tipo_vivienda",
   "proposito_credito", "monto_credito"]

/-- `CAMPOS_ENTEROS`. -/
def CAMPOS_ENTEROS : List String :=
  ["edad", "historial_crediticio", "antiguedad_laboral", "numero_dependientes"]

/-- `CAMPOS_NUMERICOS`. -/
def CAMPOS_NUMERICOS : List String :=
  ["ingreso_mensual", "total_deuda_actual", "monto_credito"]

/-- `CAMPOS_TEXTO`. -/
def CAMPOS_TEXTO : List String :=
  ["tipo_vivienda", "proposito_credito"]

/-- `TIPOS_VIVIENDA_VALIDOS`. -/
def TIPOS_VIVIENDA_VALIDOS : List String :=
  ["Propia", "Familiar", "Rentada"]

/-- `PROPOSITOS_VALIDOS`. -/
def PROPOSITOS_VALIDOS : List String :=
  ["Negocio", "Educacion", "Consumo", "Emergencia", "Vacaciones"]

/-- Group A (`_validar_campos_obligatorios`): one message per missing
required field, in declaration order. -/
def erroresObligatorios (d : PyDict) : List String :=
  CAMPOS_REQUERIDOS.filterMap fun campo =>
    if pyMem d campo then none
    else some ("Campo obligatorio faltante: " ++ campo)

/-- `all(c in datos for c in CAMPOS_REQUERIDOS)`. -/
def camposPresentes (d : PyDict) : Bool :=
  CAMPOS_REQUERIDOS.all (pyMem d)

/-- Message of group B for one ill-typed field. -/
def msgTipo (campo esperado : String) (v : PyVal) : String :=
  "El campo " ++ campo ++ " tiene un tipo de dato inválido. Se esperaba "
    ++ esperado ++ ", se recibió " ++ pyTypeName v

/-- Group B (`_validar_tipos`): type errors for the integer fields,
then the numeric fields, then the text fields; a `None` value is not a
type error. -/
def erroresTipos (d : PyDict) : List String :=
  (CAMPOS_ENTEROS.filterMap fun campo =>
    let v := pyGet d campo
    if esNone v || esEntero v then none else some (msgTipo campo "int" v)) ++
  (CAMPOS_NUMERICOS.filterMap fun campo =>
    let v := pyGet d campo
    if esNone v || esNumero v then none else some (msgTipo campo "float" v)) ++
  (CAMPOS_TEXTO.filterMap fun campo =>
    let v := pyGet d campo
    if esNone v || esTexto v then none else some (msgTipo campo "str" v))

/-- `_tipos_correctos`. -/
def tiposCorrectos (d : PyDict) : Bool :=
  (CAMPOS_ENTEROS.all fun campo =>
    let v := pyGet d campo
    esNone v || esEntero v) &&
  (CAMPOS_NUMERICOS.all fun campo =>
    let v := pyGet d campo
    esNone v || esNumero v) &&
  (CAMPOS_TEXTO.all fun campo =>
    let v := pyGet d campo
    esNone v || esTexto v)

/-- One conditional error message. -/
def chk (b : Bool) (msg : String) : List String :=
  if b then [msg] else []

/-- Group C (`_validar_rangos`): the nine range/categorical checks,
each guarded by its own `isinstance` test and evaluated independently
of the others. -/
def erroresRangos (d : PyDict) : List String :=
  (match pyGet d "edad" with
   | .vInt n => chk (decide (n < 18 ∨ 99 < n))
       ("Edad fuera de rango. Mínimo 18, máximo 99. Recibido: " ++ toString n)
   | _ => []) ++
  (match toNumQ (pyGet d "ingreso_mensual") with
   | some q => chk (decide (q ≤ 0)) "El ingreso mensual debe ser mayor a cero."
   | none => []) ++
  (match toNumQ (pyGet d "total_deuda_actual") with
   | some q => chk (decide (q < 0)) "La deuda total no puede ser negativa."
   | none => []) ++
  (match pyGet d "historial_crediticio" with
   | .vInt h => chk (decide (h ≠ 0 ∧ h ≠ 1 ∧ h ≠ 2))
       ("Historial crediticio inválido. Valores permitidos: 0 (Malo), 1 (Neutro), 2 (Bueno). Recibido: "
         ++ toString h)
   | _ => []) ++
  (match pyGet d "antiguedad_laboral" with
   | .vInt a => chk (decide (a < 0 ∨ 40 < a))
       "Antigüedad laboral fuera de rango (0–40 años)."
   | _ => []) ++
  (match pyGet d "numero_dependientes" with
   | .vInt n => chk (decide (n < 0 ∨ 10 < n))
       "Número de dependientes fuera de rango (0–10)."
   | _ => []) ++
  (match pyGet d "tipo_vivienda" with
   | .vStr s => chk (!TIPOS_VIVIENDA_VALIDOS.contains s)
       ("Tipo de vivienda inválido. Valores permitidos: Propia, Familiar, Rentada. Recibido: " ++ s)
   | _ => []) ++
  (match pyGet d "proposito_credito" with
   | .vStr s => chk (!PROPOSITOS_VALIDOS.contains s)
       "Propósito de crédito inválido."
   | _ => []) ++
  (match toNumQ (pyGet d "monto_credito") with
   | some q => chk (decide (q < 500 ∨ 50000 < q))
       "Monto de crédito fuera de rango ($500 – $50,000)."
   | none => [])

/-- Group D (`_validar_coherencia`): the three cross-field checks,
evaluated independently. -/
def erroresCoherencia (d : PyDict) : List String :=
  (match pyGet d "edad", pyGet d "antiguedad_laboral" with
   | .vInt edad, .vInt antig =>
       let limite := edad - 15
       chk (decide (limite < antig))
         ("Incoherencia lógica: la antigüedad laboral (" ++ toString antig
           ++ " años) no puede superar (edad - 15) = " ++ toString limite ++ " años.")
   | _, _ => []) ++
  (match toNumQ (pyGet d "ingreso_mensual"), toNumQ (pyGet d "total_deuda_actual") with
   | some ingreso, some deuda =>
       if 0 < ingreso then
         let limite := ingreso * 24
         chk (decide (limite < deuda))
           ("La deuda total (" ++ pyStr (pyGet d "total_deuda_actual")
             ++ ") supera el límite razonable de 24 meses de ingreso ("
             ++ qRepr limite ++ ").")
       else []
   | _, _ => []) ++
  (match toNumQ (pyGet d "ingreso_mensual"), toNumQ (pyGet d "monto_credito") with
   | some ingreso, some monto =>
       if 0 < ingreso then
         let limite := ingreso * 18
         chk (decide (limite < monto))
           ("El monto solicitado (" ++ pyStr (pyGet d "monto_credito")
             ++ ") supera el límite de 18 meses de ingreso ("
             ++ qRepr limite ++ ") para este solicitante.")
       else []
   | _, _ => [])

/-- `Validator.validate`: group A, early return when a required field
is missing; group B, early return when a type check fails; otherwise
groups C and D, all checks accumulated. -/
def validate (d : PyDict) : Bool × List String :=
  let e1 := erroresObligatorios d
  if ¬ camposPresentes d then (false, e1)
  else
    let e2 := e1 ++ erroresTipos d
    if ¬ tiposCorrectos d then (decide (e2 = []), e2)
    else
      let e4 := (e2 ++ erroresRangos d) ++ erroresCoherencia d
      (decide (e4 = []), e4)

/-!  Sanitization (core/validator.py, `sanitize` and helpers)  -/

/-- `re.sub(r'[^\d.\-]', '', s)` over the ASCII alphabet that matters
here: keep digits, the dot and the hyphen. -/
def limpiarNum (s : String) : String :=
  String.mk (s.toList.filter fun c => c.isDigit || c == '.' || c == '-')

/-- Value of a list of decimal digits. -/
def digitsVal (l : List Char) : Nat :=
  l.foldl (fun a c => 10 * a + (c.toNat - 48)) 0

/-- Parse an unsigned decimal body (`float` grammar restricted to the
post-filter alphabet: digits and at most one dot, at least one digit,
no sign). -/
def parsePyFloatAux (cs : List Char) : Option Rat :=
  if cs.any (fun c => c == '-') then none
  else if ¬ cs.all (fun c => c.isDigit || c == '.') then none
  else
    let intPart := cs.takeWhile (fun c => c != '.')
    let rest := cs.dropWhile (fun c => c != '.')
    match rest with
    | [] => if intPart.isEmpty then none else some ((digitsVal intPart : Nat) : Rat)
    | _ :: frac =>
        if frac.any (fun c => c == '.') then none
        else if intPart.isEmpty && frac.isEmpty then none
        else some (((digitsVal intPart : Nat) : Rat)
          + ((digitsVal frac : Nat) : Rat) / (10 : Rat) ^ frac.length)

/-- Python `float(s)` on a string drawn from the post-filter alphabet
(optional leading minus, digits, at most one dot); `none` models the
`ValueError` on anything else. -/
def parsePyFloat (s : String) : Option Rat :=
  match s.toList with
  | '-' :: rest => (parsePyFloatAux rest).map (fun q => -q)
  | cs => parsePyFloatAux cs

/-- `Validator._a_entero`: best-effort conversion to `int`; an integral
float is truncated, a cleaned numeric string is parsed then truncated,
anything else is returned unchanged. -/
def a_entero (v : PyVal) : PyVal :=
  match v with
  | .vInt n => .vInt n
  | .vFloat q => if q.den == 1 then .vInt q.num else .vFloat q
  | .vStr s =>
      match parsePyFloat (limpiarNum s) with
      | some q => .vInt (pyTrunc q)
      | none => .vStr s
  | .vNone => .vNone

/-- `Validator._a_flotante`: best-effort conversion to `float`. -/
def a_flotante (v : PyVal) : PyVal :=
  match v with
  | .vInt n => .vFloat (n : Rat)
  | .vFloat q => .vFloat q
  | .vStr s =>
      match parsePyFloat (limpiarNum s) with
      | some q => .vFloat q
      | none => .vStr s
  | .vNone => .vNone

/-- `Validator._capitalizar`: trim, then upper-case the first character
only. -/
def capitalizar (texto : String) : String :=
  let t := pyStrip texto
  match t.toList with
  | [] => t
  | c :: rest => String.mk (c.toUpper :: rest)

/-- The leading `if isinstance(valor, str): valor = valor.strip()` of
the sanitize loop. -/
def stripIfStr : PyVal → PyVal
  | .vStr s => .vStr (pyStrip s)
  | x => x

/-- The per-entry transformation of `Validator.sanitize`: strings are
stripped, then the field class selects the coercion. -/
def sanitizeVal (campo : String) (valor : PyVal) : PyVal :=
  let v := stripIfStr valor
  if CAMPOS_ENTEROS.contains campo then a_entero v
  else if CAMPOS_NUMERICOS.contains campo then a_flotante v
  else if campo == "tipo_vivienda" then .vStr (capitalizar (pyStr v))
  else if campo == "proposito_credito" then .vStr (capitalizar (pyStr v))
  else v

/-- `Validator.sanitize`: apply the per-entry transformation to every
binding, preserving insertion order. -/
def sanitize (d : PyDict) : PyDict :=
  d.map fun p => (p.1, sanitizeVal p.1 p.2)

/-!  ScoringEngine (core/scorer.py)  -/

/-- `ScoringEngine.calculate_dti`: DTI ratio rounded to 4 decimals and
its classification; non-positive income short-circuits to
`(1.0, "CRITICO")`. -/
def calculate_dti (ingreso deuda : Rat) : Rat × String :=
  if ingreso ≤ 0 then (1, "CRITICO")
  else
    let dti := roundTo 4 (deuda / ingreso)
    if dti < 1/4 then (dti, "BAJO")
    else if dti < 2/5 then (dti, "MODERADO")
    else if dti < 3/5 then (dti, "ALTO")
    else (dti, "CRITICO")

/-- The four sub-scores of `calculate_subscores`. -/
structure SubScores where
  solvencia : Int
  estabilidad : Int
  historial_score : Int
  perfil : Int
deriving DecidableEq

/-- `ScoringEngine._score_solvencia` (max 40); `none` models the
`TypeError` raised on a non-numeric income or dependents value. -/
def score_solvencia (d : PyDict) (dti : Rat) : Option Int :=
  match toNumQ (pyGetD d "ingreso_mensual" (.vInt 0)),
        toNumQ (pyGetD d "numero_dependientes" (.vInt 0)) with
  | some ingreso, some deps =>
      let base := min (ingreso / 30000 * 20) 20
      let ajuste_dti : Rat :=
        if dti < 1/4 then 10
        else if dti < 2/5 then 5
        else if dti < 3/5 then -5
        else -15
      let ajuste_deps := deps * (3/2)
      let total := base + ajuste_dti - ajuste_deps
      some (pyTrunc (max 0 (min 40 total)))
  | _, _ => none

/-- `ScoringEngine._score_estabilidad` (max 30); `none` models the
`TypeError` raised on a non-numeric job-seniority value. -/
def score_estabilidad (d : PyDict) : Option Int :=
  match toNumQ (pyGetD d "antiguedad_laboral" (.vInt 0)) with
  | some antig =>
      let pts_antig : Int :=
        if antig < 1 then 0
        else if antig < 2 then 8
        else if antig < 5 then 18
        else 28
      let vivienda := pyGetD d "tipo_vivienda" (.vStr "")
      let pts_viv : Int :=
        if pyEq vivienda (.vStr "Propia") then 8
        else if pyEq vivienda (.vStr "Familiar") then 3
        else 0
      some (min (pts_antig + pts_viv) 30)
  | none => none

/-- `ScoringEngine._score_historial` (max 20); equality checks are
total, so this never raises. -/
def score_historial (d : PyDict) : Int :=
  let hist := pyGetD d "historial_crediticio" (.vInt 0)
  if pyEq hist (.vInt 2) then 20
  else if pyEq hist (.vInt 1) then 10
  else 0

/-- `ScoringEngine._score_perfil` (max 10); `none` models the
`TypeError` raised on a non-numeric age value. -/
def score_perfil (d : PyDict) : Option Int :=
  let prop := pyGetD d "proposito_credito" (.vStr "")
  let pts0 : Int :=
    if pyEq prop (.vStr "Negocio") then 10
    else if pyEq prop (.vStr "Educacion") then 8
    else if pyEq prop (.vStr "Emergencia") then 6
    else if pyEq prop (.vStr "Consumo") then 4
    else if pyEq prop (.vStr "Vacaciones") then 0
    else 2
  match toNumQ (pyGetD d "edad" (.vInt 0)) with
  | some edad =>
      let pts := if 25 ≤ edad ∧ edad ≤ 55 then pts0 + 2 else pts0
      some (min pts 10)
  | none => none

/-- `ScoringEngine.calculate_subscores`. -/
def calculate_subscores (d : PyDict) (dti : Rat) : Option SubScores :=
  match score_solvencia d dti, score_estabilidad d, score_perfil d with
  | some s, some e, some p => some ⟨s, e, score_historial d, p⟩
  | _, _, _ => none

/-- One entry of a compensation rule's `condiciones` array; every field
is optional, mirroring dict keys that may be absent. -/
structure Condicion where
  campo : Option String
  operador : Option String
  valor : Option PyVal
  campo_referencia : Option String
  factor : Option PyVal
deriving DecidableEq

/-- A rule dict from rules.json; every field is optional, mirroring
dict keys that may be absent. -/
structure Regla where
  id : Option String
  activa : Option Bool
  tipo : Option String
  condicion_campo : Option String
  condicion_operador : Option String
  condicion_valor : Option PyVal
  condiciones : Option (List Condicion)
  impacto_puntos : Option Int
  descripcion : Option String
  flag : Option String
deriving DecidableEq, Inhabited

/-- An entry of the fired-rules list built by `apply_rules`
(`id`, `impacto`, `descripcion`, `tipo`, optional `flag`). -/
structure Activada where
  id : String
  impacto : Int
  descripcion : String
  tipo : String
  flag : Option String
deriving DecidableEq

/-- `ScoringEngine._comparar`: dispatch on the operator string; an
unknown operator yields `False`, and the `except TypeError` clause
turns an undefined ordering comparison into `False`. -/
def comparar (actual : PyVal) (operador : String) (esperado : PyVal) : Bool :=
  if operador == "==" then pyEq actual esperado
  else if operador == "!=" then !(pyEq actual esperado)
  else if operador == ">" then (pyGt actual esperado).getD false
  else if operador == ">=" then (pyGe actual esperado).getD false
  else if operador == "<" then (pyLt actual esperado).getD false
  else if operador == "<=" then (pyLe actual esperado).getD false
  else false

/-- `ScoringEngine._evaluar_directa`. -/
def evaluar_directa (d : PyDict) (r : Regla) : Bool :=
  let campo := r.condicion_campo.getD ""
  let operador := r.condicion_operador.getD "=="
  let valor_esperado := r.condicion_valor.getD .vNone
  let valor_actual := pyGet d campo
  if esNone valor_actual then false
  else comparar valor_actual operador valor_esperado

/-- One condition of `_evaluar_compensacion`; `none` models the
`TypeError` that `ref * factor` may raise (it propagates out of the
condition loop and is caught by `apply_rules`). -/
def condCumple (d : PyDict) (c : Condicion) : Option Bool :=
  let campo := c.campo.getD ""
  let operador := c.operador.getD "=="
  let valor_actual := pyGet d campo
  if esNone valor_actual then some false
  else
    match c.campo_referencia with
    | some refCampo =>
        let refVal := pyGet d refCampo
        if esNone refVal then some false
        else
          match pyMul refVal (c.factor.getD (.vFloat 1)) with
          | none => none
          | some valor_esperado => some (comparar valor_actual operador valor_esperado)
    | none => some (comparar valor_actual operador (c.valor.getD .vNone))

/-- The condition loop of `_evaluar_compensacion`: logical AND with
short-circuit on the first failing condition; a raised `TypeError`
propagates. -/
def evaluarCondiciones (d : PyDict) : List Condicion → Option Bool
  | [] => some true
  | c :: rest =>
      match condCumple d c with
      | none => none
      | some false => some false
      | some true => evaluarCondiciones d rest

/-- `ScoringEngine._evaluar_compensacion`: an absent or empty condition
list yields `False`; otherwise all conditions must hold. -/
def evaluar_compensacion (d : PyDict) (r : Regla) : Option Bool :=
  match r.condiciones.getD [] with
  | [] => some false
  | conds => evaluarCondiciones d conds

/-- Building the fired-rule entry inside `apply_rules`: `regla["id"]`,
`regla["impacto_puntos"]` and `regla["descripcion"]` are mandatory
lookups, so a missing key is a `KeyError` (`none`) that escapes. -/
def construirEntrada (tipo : String) (r : Regla) : Option Activada :=
  match r.id, r.impacto_puntos, r.descripcion with
  | some i, some imp, some desc => some ⟨i, imp, desc, tipo, r.flag⟩
  | _, _, _ => none

/-- The rule loop of `ScoringEngine.apply_rules` over the extended
data; an evaluation failure is caught and the rule skipped, but a
`KeyError` while recording a fired rule escapes (`none`). -/
def applyRulesGo (d : PyDict) : List Regla → Option (List Activada)
  | [] => some []
  | r :: rest =>
      if ¬ (r.activa.getD false) then applyRulesGo d rest
      else
        let tipo := r.tipo.getD "directa"
        let cumple : Option Bool :=
          if tipo == "directa" then some (evaluar_directa d r)
          else if tipo == "compensacion" then evaluar_compensacion d r
          else some false
        match cumple with
        | none => applyRulesGo d rest
        | some false => applyRulesGo d rest
        | some true =>
            match construirEntrada tipo r with
            | none => none
            | some a => (applyRulesGo d rest).map (fun l => a :: l)

/-- `ScoringEngine.apply_rules`: evaluate every active rule against the
data extended with the virtual `dti` field. -/
def apply_rules (reglas : List Regla) (datos : PyDict) (dti : Rat) :
    Option (List Activada) :=
  applyRulesGo (("dti", .vFloat dti) :: datos) reglas

/-- `ScoringEngine.calculate_final_score`: sum of the sub-scores plus
the fired-rule impacts, clamped to `[0, 100]`, and the threshold chosen
by the requested amount. -/
def calculate_final_score (sub : SubScores) (reglas_activadas : List Activada)
    (monto_credito : Rat) : Int × Int :=
  let base := sub.solvencia + sub.estabilidad + sub.historial_score + sub.perfil
  let impacto_total := (reglas_activadas.map (fun r => r.impacto)).sum
  let raw_score := base + impacto_total
  let score_final := max 0 (min 100 raw_score)
  let umbral : Int := if monto_credito > 20000 then 85 else 80
  (score_final, umbral)

/-- `ScoringEngine.get_dictamen`: the three-state decision; a critical
DTI classification forces `"RECHAZADO"` regardless of the score. -/
def get_dictamen (score umbral : Int) (dti_clasificacion : String) : String :=
  if dti_clasificacion == "CRITICO" then "RECHAZADO"
  else if score ≥ umbral then "APROBADO"
  else if score ≥ umbral - 20 then "REVISION_MANUAL"
  else "RECHAZADO"

/-!  InferenceEngine (core/engine.py)

The evaluation log is modelled as a line counter (its content embeds
the wall clock, an effect outside the embedding), and the out-of-scope
natural-language explainer as an opaque total function passed in as a
parameter. -/

/-- The evaluation output dict. -/
structure Resultado where
  score_final : Int
  dti_ratio : Rat
  dti_clasificacion : String
  sub_scores : SubScores
  dictamen : String
  umbral_aplicado : Int
  reglas_activadas : List Activada
  compensaciones : List Activada
  reporte_explicacion : String
  errores_validacion : List String
deriving DecidableEq

/-- The engine's mutable session counters. -/
structure Stats where
  total_evaluaciones : Nat
  aprobados : Nat
  rechazados : Nat
  revision_manual : Nat
  suma_scores : Rat
  suma_dti : Rat
deriving DecidableEq

/-- The snapshot returned by the `stats` property. -/
structure StatsView where
  total_evaluaciones : Nat
  aprobados : Nat
  rechazados : Nat
  revision_manual : Nat
  tasa_aprobacion : Rat
  score_promedio : Rat
  dti_promedio : Rat
deriving DecidableEq

/-- `InferenceEngine._resultado_con_errores`: the structurally complete
rejected result carrying an error list and no score. -/
def resultado_con_errores (errores : List String) : Resultado :=
  { score_final := 0
    dti_ratio := 0
    dti_clasificacion := "N/A"
    sub_scores := ⟨0, 0, 0, 0⟩
    dictamen := "RECHAZADO"
    umbral_aplicado := 80
    reglas_activadas := []
    compensaciones := []
    reporte_explicacion := ""
    errores_validacion := errores }

/-- `InferenceEngine._actualizar_stats`. -/
def actualizar_stats (st : Stats) (r : Resultado) : Stats :=
  { total_evaluaciones := st.total_evaluaciones + 1
    aprobados := if r.dictamen == "APROBADO" then st.aprobados + 1 else st.aprobados
    rechazados := if r.dictamen == "RECHAZADO" then st.rechazados + 1 else st.rechazados
    revision_manual :=
      if r.dictamen == "REVISION_MANUAL" then st.revision_manual + 1
      else st.revision_manual
    suma_scores := st.suma_scores + (r.score_final : Rat)
    suma_dti := st.suma_dti + r.dti_ratio }

/-- The `stats` property: averages and rates over the session counters,
all zero while no evaluation has been recorded. -/
def statsSnapshot (st : Stats) : StatsView :=
  if st.total_evaluaciones = 0 then ⟨0, 0, 0, 0, 0, 0, 0⟩
  else
    { total_evaluaciones := st.total_evaluaciones
      aprobados := st.aprobados
      rechazados := st.rechazados
      revision_manual := st.revision_manual
      tasa_aprobacion :=
        roundTo 2 ((st.aprobados : Rat) / (st.total_evaluaciones : Rat) * 100)
      score_promedio := roundTo 2 (st.suma_scores / (st.total_evaluaciones : Rat))
      dti_promedio := roundTo 4 (st.suma_dti / (st.total_evaluaciones : Rat)) }

/-- Steps 6 and 7 of `InferenceEngine.evaluate`: final score, decision
and explanation; a non-numeric requested amount is the `TypeError` that
the threshold comparison would raise. -/
def evaluatePaso6 (expl : PyDict → Resultado → String) (d : PyDict)
    (par : Rat × String) (sub : SubScores) (reglasAct : List Activada) :
    Except String Resultado :=
  match toNumQ (pyGet d "monto_credito") with
  | none => .error "TypeError en calculate_final_score"
  | some monto =>
      let sc := calculate_final_score sub reglasAct monto
      let dictamen := get_dictamen sc.1 sc.2 par.2
      let r0 : Resultado :=
        { score_final := sc.1
          dti_ratio := par.1
          dti_clasificacion := par.2
          sub_scores := sub
          dictamen := dictamen
          umbral_aplicado := sc.2
          reglas_activadas := reglasAct
          compensaciones := reglasAct.filter (fun r => r.tipo == "compensacion")
          reporte_explicacion := ""
          errores_validacion := [] }
      .ok { r0 with reporte_explicacion := expl d r0 }

/-- Step 5 of `InferenceEngine.evaluate`: the rule pass; a `KeyError`
escaping `apply_rules` reaches the orchestrator's `except` clause. -/
def evaluatePaso5 (reglas : List Regla) (expl : PyDict → Resultado → String)
    (d : PyDict) (par : Rat × String) (sub : SubScores) :
    Except String Resultado :=
  match apply_rules reglas d par.1 with
  | none => .error "KeyError en apply_rules"
  | some reglasAct => evaluatePaso6 expl d par sub reglasAct

/-- Step 4 of `InferenceEngine.evaluate`: the sub-score pass. -/
def evaluatePaso4 (reglas : List Regla) (expl : PyDict → Resultado → String)
    (d : PyDict) (par : Rat × String) : Except String Resultado :=
  match calculate_subscores d par.1 with
  | none => .error "TypeError en calculate_subscores"
  | some sub => evaluatePaso5 reglas expl d par sub

/-- Steps 3 to 7 of `InferenceEngine.evaluate` on validated data: DTI,
sub-scores, rules, final score, decision and explanation.  A failure is
an exception reaching the orchestrator's `except` clause. -/
def evaluateCore (reglas : List Regla) (expl : PyDict → Resultado → String)
    (d : PyDict) : Except String Resultado :=
  match toNumQ (pyGet d "ingreso_mensual"), toNumQ (pyGet d "total_deuda_actual") with
  | some ingreso, some deuda => evaluatePaso4 reglas expl d (calculate_dti ingreso deuda)
  | _, _ => .error "TypeError en calculate_dti"

/-- `InferenceEngine.evaluate`: sanitize, validate (early error
return), run the scoring pipeline, log one line and update the session
counters; any internal failure is converted into a synthetic rejected
result and the state is left untouched. -/
def evaluate (reglas : List Regla) (expl : PyDict → Resultado → String)
    (st : Stats) (logN : Nat) (datos : PyDict) : Resultado × Stats × Nat :=
  let datos_limpios := sanitize datos
  let v := validate datos_limpios
  if v.1 = false then (resultado_con_errores v.2, st, logN)
  else
    match evaluateCore reglas expl datos_limpios with
    | .error e => (resultado_con_errores ["Error interno: " ++ e], st, logN)
    | .ok r => (r, actualizar_stats st r, logN + 1)

/-!  MIHACMetrics (validation/metrics.py)

The sklearn cross-checks and the AUC computation delegate to an
external library and are outside the embedding; everything the claims
mention (counts and the derived ratios) is modelled. -/

/-- The confusion-matrix dict (`VP`, `FP`, `VN`, `FN`, `total`). -/
structure Matriz where
  VP : Nat
  FP : Nat
  VN : Nat
  FN : Nat
  total : Nat
deriving DecidableEq

/-- `MIHACMetrics.confusion_matrix_data`: elementwise comparison of the
prediction/label vectors. -/
def confusion_matrix_data (y_real y_pred : List Int) : Matriz :=
  let pares := y_pred.zip y_real
  let vp := (pares.filter fun pr => pr.1 == 1 && pr.2 == 1).length
  let fp := (pares.filter fun pr => pr.1 == 1 && pr.2 == 0).length
  let vn := (pares.filter fun pr => pr.1 == 0 && pr.2 == 0).length
  let fn_ := (pares.filter fun pr => pr.1 == 0 && pr.2 == 1).length
  ⟨vp, fp, vn, fn_, vp + fp + vn + fn_⟩

/-- The metric fields of the dict returned by `calculate_all` that do
not delegate to sklearn. -/
structure Metricas where
  accuracy : Rat
  precision : Rat
  recall_ : Rat
  f1_score : Rat
  specificity : Rat
  tasa_morosidad_predicha : Rat
  tasa_rechazo_injusto : Rat
  costo_asimetrico : Rat
  matriz : Matriz
  n_aprobados : Nat
  n_rechazados : Nat
  n_revision : Nat
deriving DecidableEq

/-- `MIHACMetrics.COSTO_FP`. -/
def COSTO_FP : Rat := 4

/-- `MIHACMetrics.COSTO_FN`. -/
def COSTO_FN : Rat := 1

/-- `accuracy = (vp + vn) / total if total > 0 else 0.0`. -/
def accuracyRaw (cm : Matriz) : Rat :=
  if 0 < cm.total then ((cm.VP : Rat) + (cm.VN : Rat)) / (cm.total : Rat) else 0

/-- `precision = vp / (vp + fp) if (vp + fp) > 0 else 0.0`. -/
def precisionRaw (cm : Matriz) : Rat :=
  if 0 < cm.VP + cm.FP then (cm.VP : Rat) / ((cm.VP : Rat) + (cm.FP : Rat)) else 0

/-- `recall = vp / (vp + fn) if (vp + fn) > 0 else 0.0`. -/
def recallRaw (cm : Matriz) : Rat :=
  if 0 < cm.VP + cm.FN then (cm.VP : Rat) / ((cm.VP : Rat) + (cm.FN : Rat)) else 0

/-- `f1 = 2*(precision*recall)/(precision+recall)` guarded by a
positive denominator. -/
def f1Raw (cm : Matriz) : Rat :=
  if 0 < precisionRaw cm + recallRaw cm
  then 2 * (precisionRaw cm * recallRaw cm) / (precisionRaw cm + recallRaw cm)
  else 0

/-- `specificity = vn / (vn + fp) if (vn + fp) > 0 else 0.0`. -/
def specificityRaw (cm : Matriz) : Rat :=
  if 0 < cm.VN + cm.FP then (cm.VN : Rat) / ((cm.VN : Rat) + (cm.FP : Rat)) else 0

/-- `tasa_morosidad = fp / (vp + fp)` guarded. -/
def tasaMorosidadRaw (cm : Matriz) : Rat :=
  if 0 < cm.VP + cm.FP then (cm.FP : Rat) / ((cm.VP : Rat) + (cm.FP : Rat)) else 0

/-- `tasa_rechazo_injusto = fn / (vn + fn)` guarded. -/
def tasaRechazoRaw (cm : Matriz) : Rat :=
  if 0 < cm.VN + cm.FN then (cm.FN : Rat) / ((cm.VN : Rat) + (cm.FN : Rat)) else 0

/-- `costo = (fp*COSTO_FP + fn*COSTO_FN) / total` guarded. -/
def costoRaw (cm : Matriz) : Rat :=
  if 0 < cm.total
  then ((cm.FP : Rat) * COSTO_FP + (cm.FN : Rat) * COSTO_FN) / (cm.total : Rat)
  else 0

/-- `MIHACMetrics.calculate_all` (manual part): every ratio guards its
denominator and falls back to 0; results are rounded to 4 decimals.
The sklearn cross-check and the AUC delegate to an external library and
are outside the embedding; `scores` is carried for the signature. -/
def calculate_all (y_real y_pred : List Int) (scores : List Rat)
    (dictamenes : Option (List String)) : Metricas :=
  let _ := scores
  let cm := confusion_matrix_data y_real y_pred
  { accuracy := roundTo 4 (accuracyRaw cm)
    precision := roundTo 4 (precisionRaw cm)
    recall_ := roundTo 4 (recallRaw cm)
    f1_score := roundTo 4 (f1Raw cm)
    specificity := roundTo 4 (specificityRaw cm)
    tasa_morosidad_predicha := roundTo 4 (tasaMorosidadRaw cm)
    tasa_rechazo_injusto := roundTo 4 (tasaRechazoRaw cm)
    costo_asimetrico := roundTo 4 (costoRaw cm)
    matriz := cm
    n_aprobados := (y_pred.filter fun p => p == 1).length
    n_rechazados :=
      match dictamenes with
      | none => (y_pred.filter fun p => p == 0).length
      | some ds => (ds.filter fun x => x == "RECHAZADO").length
    n_revision :=
      match dictamenes with
      | none => 0
      | some ds => (ds.filter fun x => x == "REVISION_MANUAL").length }

/-!  WeightCalibrator (validation/calibrator.py, `propose_adjustments`)

Only the weight-adjustment pipeline that claim C8 is about is
modelled: the tiered deltas, the 0.02 floor, the rounding, and the
redistribution of the surplus/deficit into the currently-largest
weight.  The report-only fields (`cambios_pesos`, `justificaciones`)
carry no information used by any claim. -/

/-- One entry of `analisis["variables_criticas"]` (the `variable`,
`criticidad` and `diff_fp_pct` keys that `propose_adjustments`
reads). -/
structure VarCritica where
  nombre : String
  criticidad : Rat
  diff_fp_pct : Rat
deriving DecidableEq

/-- The `var_a_peso` mapping from analysis variables to weight keys. -/
def var_a_peso (v : String) : Option String :=
  [("ingreso_mensual", "Ingreso_Mensual"),
   ("total_deuda_actual", "Total_Deuda_Actual"),
   ("edad", "Edad"),
   ("dti_mihac", "Total_Deuda_Actual")].lookup v

/-- Dict assignment on an existing key: replace the first binding. -/
def updateAssoc (l : List (String × Rat)) (k : String) (v : Rat) :
    List (String × Rat) :=
  match l with
  | [] => []
  | (k', v') :: rest =>
      if k' == k then (k', v) :: rest
      else (k', v') :: updateAssoc rest k v

/-- One iteration of the critical-variable loop of
`propose_adjustments`: skip unmapped or missing keys and low
criticality; apply the tier delta, floor at 0.02, round to 2
decimals. -/
def ajustarPeso (pesos : List (String × Rat)) (vc : VarCritica) :
    List (String × Rat) :=
  match var_a_peso vc.nombre with
  | none => pesos
  | some k =>
      match pesos.lookup k with
      | none => pesos
      | some peso_actual =>
          if vc.criticidad < 1/2 then pesos
          else if vc.diff_fp_pct > 15 then
            updateAssoc pesos k (roundTo 2 (max (2/100) (peso_actual + (-2/100))))
          else if vc.diff_fp_pct > 8 then
            updateAssoc pesos k (roundTo 2 (max (2/100) (peso_actual + (-1/100))))
          else pesos

/-- `max(pesos_nuevos, key=pesos_nuevos.get)`: the first binding with
the maximal value (Python's `max` keeps the first of equal keys). -/
def argmaxPeso (l : List (String × Rat)) : Option (String × Rat) :=
  match l with
  | [] => none
  | p :: rest => some (rest.foldl (fun best q => if q.2 > best.2 then q else best) p)

/-- The redistribution step of `propose_adjustments`: when the rounded
deficit exceeds 0.001 in absolute value, fold it into the
currently-largest weight. -/
def redistribuir (pesos : List (String × Rat)) : List (String × Rat) :=
  let suma := (pesos.map Prod.snd).sum
  let delta := roundTo 4 (1 - suma)
  if 1/1000 < |delta| then
    match argmaxPeso pesos with
    | none => pesos
    | some p => updateAssoc pesos p.1 (roundTo 2 (p.2 + delta))
  else pesos

/-- The weight/threshold core of `WeightCalibrator.propose_adjustments`:
the proposed weight map (`pesos_nuevos`) and the proposed threshold
clamped to the `[77, 83]` conservatism window. -/
def propose_adjustments (pesos_actual : List (String × Rat))
    (criticas : List VarCritica) (umbral_optimo : Int) :
    List (String × Rat) × Int :=
  let pesos_nuevos := criticas.foldl ajustarPeso pesos_actual
  (redistribuir pesos_nuevos, max 77 (min 83 umbral_optimo))

/-- Operands on which a Python ordering comparison raises `TypeError`:
neither both numeric nor both strings. -/
def incompatOrd (a b : PyVal) : Bool :=
  !(((toNumQ a).isSome && (toNumQ b).isSome) || (esTexto a && esTexto b))

/-!  Theorems  -/

/-- C1: `get_dictamen` returns `RECHAZADO` whenever the DTI
classification is critical, regardless of score and threshold;
otherwise `APROBADO` at or above the threshold, `REVISION_MANUAL` in
the 20-point band below it, `RECHAZADO` below that band; and no other
value is ever returned. -/
theorem C1_get_dictamen (score umbral : Int) (clasif : String) :
    (clasif = "CRITICO" → get_dictamen score umbral clasif = "RECHAZADO")
    ∧ (clasif ≠ "CRITICO" →
        (umbral ≤ score → get_dictamen score umbral clasif = "APROBADO")
        ∧ (umbral - 20 ≤ score → score < umbral →
            get_dictamen score umbral clasif = "REVISION_MANUAL")
        ∧ (score < umbral - 20 → get_dictamen score umbral clasif = "RECHAZADO"))
    ∧ (get_dictamen score umbral clasif = "APROBADO"
        ∨ get_dictamen score umbral clasif = "REVISION_MANUAL"
        ∨ get_dictamen score umbral clasif = "RECHAZADO") := by
  refine ⟨fun h => ?_, fun h => ⟨fun h1 => ?_, fun h1 h2 => ?_, fun h1 => ?_⟩, ?_⟩
  · simp [get_dictamen, h]
  · have hb : (clasif == "CRITICO") = false := beq_eq_false_iff_ne.mpr h
    simp only [get_dictamen, hb, Bool.false_eq_true, if_false, ge_iff_le, if_pos h1]
  · have hb : (clasif == "CRITICO") = false := beq_eq_false_iff_ne.mpr h
    simp only [get_dictamen, hb, Bool.false_eq_true, if_false, ge_iff_le]
    rw [if_neg (by omega), if_pos (by omega)]
  · have hb : (clasif == "CRITICO") = false := beq_eq_false_iff_ne.mpr h
    simp only [get_dictamen, hb, Bool.false_eq_true, if_false, ge_iff_le]
    rw [if_neg (by omega), if_neg (by omega)]
  · unfold get_dictamen
    split_ifs <;> simp

theorem C1_get_dictamen_witness :
    get_dictamen 100 80 "CRITICO" = "RECHAZADO"
    ∧ get_dictamen 100 80 "BAJO" = "APROBADO"
    ∧ get_dictamen 65 80 "BAJO" = "REVISION_MANUAL"
    ∧ get_dictamen 50 80 "BAJO" = "RECHAZADO" :=
  ⟨(C1_get_dictamen 100 80 "CRITICO").1 rfl,
   ((C1_get_dictamen 100 80 "BAJO").2.1 (by decide)).1 (by decide),
   ((C1_get_dictamen 65 80 "BAJO").2.1 (by decide)).2.1 (by decide) (by decide),
   ((C1_get_dictamen 50 80 "BAJO").2.1 (by decide)).2.2 (by decide)⟩

/-- C2: `calculate_dti` returns `(1.0, CRITICO)` on non-positive
income; otherwise the ratio is `debt/income` rounded to 4 decimals and
the tier boundaries are half-open on the upper bound (lower bound
included in the next tier), so a rounded ratio of exactly 0.25 is
`MODERADO`, exactly 0.40 is `ALTO` and exactly 0.60 is `CRITICO`. -/
theorem C2_calculate_dti (ingreso deuda : Rat) :
    (ingreso ≤ 0 → calculate_dti ingreso deuda = (1, "CRITICO"))
    ∧ (0 < ingreso →
        (calculate_dti ingreso deuda).1 = roundTo 4 (deuda / ingreso)
        ∧ ((calculate_dti ingreso deuda).1 < 1/4 →
            (calculate_dti ingreso deuda).2 = "BAJO")
        ∧ (1/4 ≤ (calculate_dti ingreso deuda).1 →
            (calculate_dti ingreso deuda).1 < 2/5 →
            (calculate_dti ingreso deuda).2 = "MODERADO")
        ∧ (2/5 ≤ (calculate_dti ingreso deuda).1 →
            (calculate_dti ingreso deuda).1 < 3/5 →
            (calculate_dti ingreso deuda).2 = "ALTO")
        ∧ (3/5 ≤ (calculate_dti ingreso deuda).1 →
            (calculate_dti ingreso deuda).2 = "CRITICO")) := by
  constructor
  · intro h
    simp [calculate_dti, h]
  · intro h
    have hne : ¬ ingreso ≤ 0 := not_le.mpr h
    simp only [calculate_dti, if_neg hne]
    set r := roundTo 4 (deuda / ingreso) with hr
    refine ⟨?_, fun h1 => ?_, fun h1 h2 => ?_, fun h1 h2 => ?_, fun h1 => ?_⟩
    · split_ifs <;> rfl
    · have hfst : (if r < 1/4 then (r, "BAJO")
          else if r < 2/5 then (r, "MODERADO")
          else if r < 3/5 then (r, "ALTO")
          else (r, "CRITICO")).1 = r := by split_ifs <;> rfl
      rw [hfst] at h1
      rw [if_pos h1]
    · have hfst : (if r < 1/4 then (r, "BAJO")
          else if r < 2/5 then (r, "MODERADO")
          else if r < 3/5 then (r, "ALTO")
          else (r, "CRITICO")).1 = r := by split_ifs <;> rfl
      rw [hfst] at h1 h2
      rw [if_neg (not_lt.mpr h1), if_pos h2]
    · have hfst : (if r < 1/4 then (r, "BAJO")
          else if r < 2/5 then (r, "MODERADO")
          else if r < 3/5 then (r, "ALTO")
          else (r, "CRITICO")).1 = r := by split_ifs <;> rfl
      rw [hfst] at h1 h2
      rw [if_neg (by linarith), if_neg (not_lt.mpr h1), if_pos h2]
    · have hfst : (if r < 1/4 then (r, "BAJO")
          else if r < 2/5 then (r, "MODERADO")
          else if r < 3/5 then (r, "ALTO")
          else (r, "CRITICO")).1 = r := by split_ifs <;> rfl
      rw [hfst] at h1
      rw [if_neg (by linarith), if_neg (by linarith), if_neg (not_lt.mpr h1)]

theorem C2_calculate_dti_witness :
    (calculate_dti 100 25).2 = "MODERADO"
    ∧ (calculate_dti 100 40).2 = "ALTO"
    ∧ (calculate_dti 100 60).2 = "CRITICO"
    ∧ calculate_dti (-5) 3 = (1, "CRITICO") := by
  have e25 : roundTo 4 ((25 : Rat) / 100) = 1/4 := by
    rw [roundTo, qfloor_eq]; norm_num
  have e40 : roundTo 4 ((40 : Rat) / 100) = 2/5 := by
    rw [roundTo, qfloor_eq]; norm_num
  have e60 : roundTo 4 ((60 : Rat) / 100) = 3/5 := by
    rw [roundTo, qfloor_eq]; norm_num
  have h25 := (C2_calculate_dti 100 25).2 (by norm_num)
  have h40 := (C2_calculate_dti 100 40).2 (by norm_num)
  have h60 := (C2_calculate_dti 100 60).2 (by norm_num)
  refine ⟨h25.2.2.1 ?_ ?_, h40.2.2.2.1 ?_ ?_, h60.2.2.2.2 ?_,
    (C2_calculate_dti (-5) 3).1 (by norm_num)⟩
  · rw [h25.1, e25]
  · rw [h25.1, e25]; norm_num
  · rw [h40.1, e40]
  · rw [h40.1, e40]; norm_num
  · rw [h60.1, e60]

/-- C3: `calculate_final_score` returns the sum of the four sub-scores
plus the fired-rule impacts clamped to `[0, 100]`, with threshold 85
for a requested amount strictly above 20000 and 80 otherwise; in
particular 20000.00 selects 80 and 20000.01 selects 85. -/
theorem C3_calculate_final_score (sub : SubScores) (reglas : List Activada)
    (monto : Rat) :
    (calculate_final_score sub reglas monto).1
      = max 0 (min 100 (sub.solvencia + sub.estabilidad + sub.historial_score
          + sub.perfil + (reglas.map (fun r => r.impacto)).sum))
    ∧ 0 ≤ (calculate_final_score sub reglas monto).1
    ∧ (calculate_final_score sub reglas monto).1 ≤ 100
    ∧ (20000 < monto → (calculate_final_score sub reglas monto).2 = 85)
    ∧ (monto ≤ 20000 → (calculate_final_score sub reglas monto).2 = 80)
    ∧ (calculate_final_score sub reglas 20000).2 = 80
    ∧ (calculate_final_score sub reglas (2000001/100)).2 = 85 := by
  refine ⟨rfl, le_max_left _ _,
    max_le (by norm_num) (min_le_left _ _),
    fun h => ?_, fun h => ?_, ?_, ?_⟩
  · simp only [calculate_final_score, if_pos h]
  · simp only [calculate_final_score, if_neg (not_lt.mpr h)]
  · simp only [calculate_final_score, if_neg (by norm_num : ¬ (20000 : Rat) > 20000)]
  · simp only [calculate_final_score,
      if_pos (by norm_num : (2000001 : Rat)/100 > 20000)]

theorem C3_calculate_final_score_witness :
    (calculate_final_score ⟨40, 30, 20, 10⟩ [] 25000).2 = 85
    ∧ (calculate_final_score ⟨40, 30, 20, 10⟩ [] 15000).2 = 80
    ∧ (calculate_final_score ⟨40, 30, 20, 10⟩ [] 20000).2 = 80
    ∧ (calculate_final_score ⟨40, 30, 20, 10⟩ [] (2000001/100)).2 = 85 :=
  ⟨(C3_calculate_final_score ⟨40, 30, 20, 10⟩ [] 25000).2.2.2.1 (by norm_num),
   (C3_calculate_final_score ⟨40, 30, 20, 10⟩ [] 15000).2.2.2.2.1 (by norm_num),
   (C3_calculate_final_score ⟨40, 30, 20, 10⟩ [] 20000).2.2.2.2.2.1,
   (C3_calculate_final_score ⟨40, 30, 20, 10⟩ [] 20000).2.2.2.2.2.2⟩

theorem filterMap_if_eq_nil {α β : Type} (p : α → Bool) (m : α → β)
    (cs : List α) :
    (cs.filterMap fun c => if p c then none else some (m c)) = []
      ↔ cs.all p = true := by
  induction cs with
  | nil => simp
  | cons c rest ih =>
      by_cases h : p c <;> simp [List.filterMap_cons, h, ih]

theorem erroresObligatorios_eq_nil (d : PyDict) :
    erroresObligatorios d = [] ↔ camposPresentes d = true :=
  filterMap_if_eq_nil (fun campo => pyMem d campo)
    (fun campo => "Campo obligatorio faltante: " ++ campo) CAMPOS_REQUERIDOS

theorem erroresTipos_eq_nil (d : PyDict) :
    erroresTipos d = [] ↔ tiposCorrectos d = true := by
  unfold erroresTipos tiposCorrectos
  rw [List.append_eq_nil, List.append_eq_nil]
  rw [filterMap_if_eq_nil (fun campo => esNone (pyGet d campo) || esEntero (pyGet d campo))
        (fun campo => msgTipo campo "int" (pyGet d campo)),
      filterMap_if_eq_nil (fun campo => esNone (pyGet d campo) || esNumero (pyGet d campo))
        (fun campo => msgTipo campo "float" (pyGet d campo)),
      filterMap_if_eq_nil (fun campo => esNone (pyGet d campo) || esTexto (pyGet d campo))
        (fun campo => msgTipo campo "str" (pyGet d campo))]
  simp [Bool.and_eq_true, and_assoc]

/-- C4: `validate` runs its groups in order and accumulates: a missing
required field short-circuits to exactly the missing-field messages; a
type failure (with all fields present) returns exactly the type
messages, skipping groups C and D; with correct types every range check
runs independently, so age 150, income -5000 and amount 999999 together
produce three distinct messages.  Totality (never raises) is intrinsic:
`validate` is a Lean function into `Bool × List String`. -/
theorem C4_validate (d : PyDict) :
    (camposPresentes d = false →
        validate d = (false, erroresObligatorios d) ∧ erroresObligatorios d ≠ [])
    ∧ (camposPresentes d = true → tiposCorrectos d = false →
        validate d = (false, erroresTipos d) ∧ erroresTipos d ≠ [])
    ∧ (validate
        [("edad", .vInt 150), ("ingreso_mensual", .vFloat (-5000)),
         ("total_deuda_actual", .vFloat 4000), ("historial_crediticio", .vInt 2),
         ("antiguedad_laboral", .vInt 7), ("numero_dependientes", .vInt 1),
         ("tipo_vivienda", .vStr "Propia"), ("proposito_credito", .vStr "Negocio"),
         ("monto_credito", .vFloat 999999)]
        = (false,
           ["Edad fuera de rango. Mínimo 18, máximo 99. Recibido: 150",
            "El ingreso mensual debe ser mayor a cero.",
            "Monto de crédito fuera de rango ($500 – $50,000)."])
       ∧ List.Nodup
           ["Edad fuera de rango. Mínimo 18, máximo 99. Recibido: 150",
            "El ingreso mensual debe ser mayor a cero.",
            "Monto de crédito fuera de rango ($500 – $50,000)."]) := by
  refine ⟨fun h => ?_, fun h1 h2 => ?_, by decide, by decide⟩
  · have hne : erroresObligatorios d ≠ [] := by
      intro hnil
      rw [erroresObligatorios_eq_nil] at hnil
      rw [hnil] at h
      exact absurd h (by decide)
    refine ⟨?_, hne⟩
    unfold validate
    rw [if_pos]
    simp [h]
  · have e1nil : erroresObligatorios d = [] :=
      (erroresObligatorios_eq_nil d).mpr h1
    have hne : erroresTipos d ≠ [] := by
      intro hnil
      rw [erroresTipos_eq_nil] at hnil
      rw [hnil] at h2
      exact absurd h2 (by decide)
    refine ⟨?_, hne⟩
    unfold validate
    rw [if_neg (by simp [h1]), e1nil]
    simp only [List.nil_append]
    rw [if_pos (by simp [h2]), decide_eq_false hne]

theorem C4_validate_witness :
    validate [] = (false, erroresObligatorios []) ∧ erroresObligatorios ([] : PyDict) ≠ [] :=
  (C4_validate []).1 (by decide)

theorem buckets_particionan (l : List (Int × Int))
    (h : ∀ p ∈ l, (p.1 = 0 ∨ p.1 = 1) ∧ (p.2 = 0 ∨ p.2 = 1)) :
    (l.filter fun pr => pr.1 == 1 && pr.2 == 1).length
      + (l.filter fun pr => pr.1 == 1 && pr.2 == 0).length
      + (l.filter fun pr => pr.1 == 0 && pr.2 == 0).length
      + (l.filter fun pr => pr.1 == 0 && pr.2 == 1).length = l.length := by
  induction l with
  | nil => simp
  | cons p rest ih =>
      obtain ⟨x, y⟩ := p
      have hrest := ih fun q hq => h q (List.mem_cons_of_mem _ hq)
      obtain ⟨h1 | h1, h2 | h2⟩ := h (x, y) (List.mem_cons_self _ _) <;>
        subst h1 <;> subst h2 <;>
        simp only [List.filter_cons, List.length_cons] <;>
        norm_num <;> omega

theorem confusion_total_eq (y_real y_pred : List Int)
    (hlen : y_real.length = y_pred.length)
    (hr : ∀ v ∈ y_real, v = 0 ∨ v = 1)
    (hp : ∀ v ∈ y_pred, v = 0 ∨ v = 1) :
    (confusion_matrix_data y_real y_pred).total = y_real.length := by
  unfold confusion_matrix_data
  have hmem : ∀ q ∈ y_pred.zip y_real, (q.1 = 0 ∨ q.1 = 1) ∧ (q.2 = 0 ∨ q.2 = 1) := by
    intro q hq
    exact ⟨hp q.1 (List.of_mem_zip hq).1, hr q.2 (List.of_mem_zip hq).2⟩
  have := buckets_particionan (y_pred.zip y_real) hmem
  simp only [this]
  rw [List.length_zip, hlen, min_self]

/-- C7: with 0/1 label/prediction vectors of equal length, the four
confusion counts partition the input (`TP+FP+TN+FN = N`), and
`calculate_all` derives accuracy `(TP+TN)/N`, precision `TP/(TP+FP)`
(0 on a zero denominator), recall `TP/(TP+FN)`, F1 as the harmonic mean
of precision and recall, specificity `TN/(TN+FP)` and the asymmetric
cost `(FP*4 + FN*1)/N`, each rounded to 4 decimals for the output
dict. -/
theorem C7_metricas (y_real y_pred : List Int) (scores : List Rat)
    (dicts : Option (List String))
    (hlen : y_real.length = y_pred.length)
    (hr : ∀ v ∈ y_real, v = 0 ∨ v = 1)
    (hp : ∀ v ∈ y_pred, v = 0 ∨ v = 1) :
    (confusion_matrix_data y_real y_pred).VP + (confusion_matrix_data y_real y_pred).FP
      + (confusion_matrix_data y_real y_pred).VN + (confusion_matrix_data y_real y_pred).FN
      = y_real.length
    ∧ (confusion_matrix_data y_real y_pred).total = y_real.length
    ∧ (calculate_all y_real y_pred scores dicts).matriz = confusion_matrix_data y_real y_pred
    ∧ (y_real ≠ [] →
        (calculate_all y_real y_pred scores dicts).accuracy
          = roundTo 4 ((((confusion_matrix_data y_real y_pred).VP : Rat)
              + ((confusion_matrix_data y_real y_pred).VN : Rat)) / (y_real.length : Rat)))
    ∧ (0 < (confusion_matrix_data y_real y_pred).VP + (confusion_matrix_data y_real y_pred).FP →
        (calculate_all y_real y_pred scores dicts).precision
          = roundTo 4 (((confusion_matrix_data y_real y_pred).VP : Rat)
              / (((confusion_matrix_data y_real y_pred).VP : Rat)
                  + ((confusion_matrix_data y_real y_pred).FP : Rat))))
    ∧ ((confusion_matrix_data y_real y_pred).VP + (confusion_matrix_data y_real y_pred).FP = 0 →
        (calculate_all y_real y_pred scores dicts).precision = 0)
    ∧ (0 < (confusion_matrix_data y_real y_pred).VP + (confusion_matrix_data y_real y_pred).FN →
        (calculate_all y_real y_pred scores dicts).recall_
          = roundTo 4 (((confusion_matrix_data y_real y_pred).VP : Rat)
              / (((confusion_matrix_data y_real y_pred).VP : Rat)
                  + ((confusion_matrix_data y_real y_pred).FN : Rat))))
    ∧ ((confusion_matrix_data y_real y_pred).VP + (confusion_matrix_data y_real y_pred).FN = 0 →
        (calculate_all y_real y_pred scores dicts).recall_ = 0)
    ∧ (0 < precisionRaw (confusion_matrix_data y_real y_pred)
          + recallRaw (confusion_matrix_data y_real y_pred) →
        (calculate_all y_real y_pred scores dicts).f1_score
          = roundTo 4 (2 * (precisionRaw (confusion_matrix_data y_real y_pred)
                * recallRaw (confusion_matrix_data y_real y_pred))
              / (precisionRaw (confusion_matrix_data y_real y_pred)
                + recallRaw (confusion_matrix_data y_real y_pred))))
    ∧ (0 < (confusion_matrix_data y_real y_pred).VN + (confusion_matrix_data y_real y_pred).FP →
        (calculate_all y_real y_pred scores dicts).specificity
          = roundTo 4 (((confusion_matrix_data y_real y_pred).VN : Rat)
              / (((confusion_matrix_data y_real y_pred).VN : Rat)
                  + ((confusion_matrix_data y_real y_pred).FP : Rat))))
    ∧ (y_real ≠ [] →
        (calculate_all y_real y_pred scores dicts).costo_asimetrico
          = roundTo 4 ((((confusion_matrix_data y_real y_pred).FP : Rat) * 4
              + ((confusion_matrix_data y_real y_pred).FN : Rat) * 1) / (y_real.length : Rat))) := by
  set cm := confusion_matrix_data y_real y_pred with hcm
  have htot : cm.total = y_real.length := confusion_total_eq y_real y_pred hlen hr hp
  have hsum : cm.VP + cm.FP + cm.VN + cm.FN = y_real.length := by
    rw [← htot, hcm]
    rfl
  have hpos : y_real ≠ [] → 0 < cm.total := by
    intro hne
    rw [htot]
    exact List.length_pos.mpr hne
  refine ⟨hsum, htot, rfl, fun hne => ?_, fun h => ?_, fun h => ?_, fun h => ?_,
    fun h => ?_, fun h => ?_, fun h => ?_, fun hne => ?_⟩
  · show roundTo 4 (accuracyRaw cm) = _
    rw [accuracyRaw, if_pos (hpos hne), htot]
  · show roundTo 4 (precisionRaw cm) = _
    rw [precisionRaw, if_pos h]
  · show roundTo 4 (precisionRaw cm) = _
    rw [precisionRaw, if_neg (by omega), roundTo, qfloor_eq]
    norm_num
  · show roundTo 4 (recallRaw cm) = _
    rw [recallRaw, if_pos h]
  · show roundTo 4 (recallRaw cm) = _
    rw [recallRaw, if_neg (by omega), roundTo, qfloor_eq]
    norm_num
  · show roundTo 4 (f1Raw cm) = _
    rw [f1Raw, if_pos h]
  · show roundTo 4 (specificityRaw cm) = _
    rw [specificityRaw, if_pos h]
  · show roundTo 4 (costoRaw cm) = _
    rw [costoRaw, if_pos (hpos hne), htot]
    norm_num [COSTO_FP, COSTO_FN]

theorem C7_metricas_witness :
    (confusion_matrix_data [1, 1, 1, 0, 0, 0] [1, 1, 0, 0, 0, 1]).total = 6
    ∧ (calculate_all [1, 1, 1, 0, 0, 0] [1, 1, 0, 0, 0, 1] [90, 85, 40, 20, 15, 75]
        none).precision
      = roundTo 4 ((2 : Rat) / (2 + 1)) := by
  have h := C7_metricas [1, 1, 1, 0, 0, 0] [1, 1, 0, 0, 0, 1] [90, 85, 40, 20, 15, 75]
    none (by decide) (by decide) (by decide)
  have hcm : confusion_matrix_data [1, 1, 1, 0, 0, 0] [1, 1, 0, 0, 0, 1]
      = ⟨2, 1, 2, 1, 6⟩ := by decide
  refine ⟨by rw [hcm], ?_⟩
  have := h.2.2.2.2.1 (by rw [hcm]; decide)
  rw [hcm] at this
  simpa using this

theorem evaluarCondiciones_true_iff (d : PyDict) (cs : List Condicion) :
    evaluarCondiciones d cs = some true ↔ ∀ c ∈ cs, condCumple d c = some true := by
  induction cs with
  | nil => simp [evaluarCondiciones]
  | cons c rest ih =>
      rcases h : condCumple d c with _ | b
      · simp [evaluarCondiciones, h]
      · cases b
        · simp [evaluarCondiciones, h]
        · simp [evaluarCondiciones, h, ih]

theorem applyRulesGo_isSome (d : PyDict) (reglas : List Regla)
    (h : ∀ r ∈ reglas, r.id.isSome = true ∧ r.impacto_puntos.isSome = true
      ∧ r.descripcion.isSome = true) :
    (applyRulesGo d reglas).isSome = true := by
  induction reglas with
  | nil => simp [applyRulesGo]
  | cons r rest ih =>
      have hr := h r (List.mem_cons_self _ _)
      have hrest := ih fun q hq => h q (List.mem_cons_of_mem _ hq)
      obtain ⟨i, hi⟩ := Option.isSome_iff_exists.mp hr.1
      obtain ⟨imp, himp⟩ := Option.isSome_iff_exists.mp hr.2.1
      obtain ⟨desc, hdesc⟩ := Option.isSome_iff_exists.mp hr.2.2
      unfold applyRulesGo
      by_cases ha : r.activa.getD false = true
      · simp only [ha, not_true_eq_false, if_false]
        have hentry : construirEntrada (r.tipo.getD "directa") r
            = some ⟨i, imp, desc, r.tipo.getD "directa", r.flag⟩ := by
          unfold construirEntrada
          rw [hi, himp, hdesc]
        rcases hc : (if r.tipo.getD "directa" == "directa"
            then some (evaluar_directa d r)
            else if r.tipo.getD "directa" == "compensacion"
            then evaluar_compensacion d r
            else some false) with _ | b
        · simp only [hc, hrest]
        · cases b
          · simp only [hc, hrest]
          · simp [hc, hentry, hrest]
      · rw [if_pos ha]
        exact hrest

/-- C5 counterexample: `_comparar(30, "!=", "x")` succeeds with `True`
in Python (equality operators are total across types), so a `!=` rule
with type-incompatible operands fires rather than evaluating to false;
and a fired rule whose dict is missing `impacto_puntos` makes
`apply_rules` raise `KeyError` (the `try` block guards only the
condition evaluation), modelled as `none`. -/
theorem C5_counterexample :
    comparar (.vInt 30) "!=" (.vStr "x") = true
    ∧ apply_rules
        [{ id := some "R1", activa := some true, tipo := some "directa",
           condicion_campo := some "edad", condicion_operador := some "==",
           condicion_valor := some (.vInt 30), condiciones := none,
           impacto_puntos := none, descripcion := some "regla de prueba",
           flag := none }]
        [("edad", .vInt 30)] 0 = none := by
  constructor
  · decide
  · rfl

/-- C5 (amended): the rule interpreter's comparison returns false on
any unknown operator and on any ordering comparison whose operands are
type-incompatible (the caught `TypeError`); the equality operators are
total across types, with `==` false and `!=` true on a number/string
pair (so such a `!=` rule fires); a compensation rule yields true
exactly when its condition list is non-empty and every condition holds;
and `apply_rules` returns the fired-rule list without an exception
escaping provided every rule carries the `id`, `impacto_puntos` and
`descripcion` keys. -/
theorem C5_interprete (d : PyDict) (r : Regla) (reglas : List Regla)
    (a b : PyVal) (op : String) (dti : Rat) :
    (op ∉ ["==", "!=", ">", ">=", "<", "<="] → comparar a op b = false)
    ∧ (op ∈ ([">", ">=", "<", "<="] : List String) → incompatOrd a b = true →
        comparar a op b = false)
    ∧ ((toNumQ a).isSome = true → ∀ s,
        comparar a "==" (.vStr s) = false ∧ comparar a "!=" (.vStr s) = true)
    ∧ (evaluar_compensacion d r = some true ↔
        (r.condiciones.getD [] ≠ []
          ∧ ∀ c ∈ r.condiciones.getD [], condCumple d c = some true))
    ∧ ((∀ rr ∈ reglas, rr.id.isSome = true ∧ rr.impacto_puntos.isSome = true
          ∧ rr.descripcion.isSome = true) →
        (apply_rules reglas d dti).isSome = true) := by
  refine ⟨fun h => ?_, fun hop hab => ?_, fun ha s => ?_, ?_, fun h => ?_⟩
  · simp only [List.mem_cons, List.not_mem_nil, or_false, not_or] at h
    obtain ⟨h1, h2, h3, h4, h5, h6⟩ := h
    simp [comparar, beq_eq_false_iff_ne.mpr h1, beq_eq_false_iff_ne.mpr h2,
      beq_eq_false_iff_ne.mpr h3, beq_eq_false_iff_ne.mpr h4,
      beq_eq_false_iff_ne.mpr h5, beq_eq_false_iff_ne.mpr h6]
  · simp only [List.mem_cons, List.not_mem_nil, or_false] at hop
    rcases hop with rfl | rfl | rfl | rfl <;>
      cases a <;> cases b <;>
        simp_all [comparar, pyGt, pyGe, pyLt, pyLe, toNumQ, esTexto, incompatOrd]
  · cases a <;> simp_all [comparar, pyEq, toNumQ]
  · rcases h : r.condiciones.getD [] with _ | ⟨c, cs⟩ <;>
      simp [evaluar_compensacion, h, evaluarCondiciones_true_iff]
  · exact applyRulesGo_isSome _ reglas h

theorem C5_interprete_witness :
    comparar (.vInt 1) "contiene" (.vInt 1) = false
    ∧ comparar (.vInt 1) "<" (.vStr "x") = false
    ∧ comparar (.vInt 1) "!=" (.vStr "x") = true
    ∧ (apply_rules
        [{ id := some "R1", activa := some true, tipo := some "directa",
           condicion_campo := some "edad", condicion_operador := some "==",
           condicion_valor := some (.vInt 30), condiciones := none,
           impacto_puntos := some (-10), descripcion := some "regla de prueba",
           flag := none }]
        [("edad", .vInt 30)] 0).isSome = true :=
  ⟨(C5_interprete [] default [] (.vInt 1) (.vInt 1) "contiene" 0).1 (by decide),
   (C5_interprete [] default [] (.vInt 1) (.vStr "x") "<" 0).2.1 (by decide) (by decide),
   ((C5_interprete [] default [] (.vInt 1) (.vInt 1) "!=" 0).2.2.1 (by decide) "x").2,
   (C5_interprete [("edad", .vInt 30)] default
      [{ id := some "R1", activa := some true, tipo := some "directa",
         condicion_campo := some "edad", condicion_operador := some "==",
         condicion_valor := some (.vInt 30), condiciones := none,
         impacto_puntos := some (-10), descripcion := some "regla de prueba",
         flag := none }]
      (.vInt 1) (.vInt 1) "==" 0).2.2.2.2 (by decide)⟩

theorem evaluateCore_ok_sin_errores (reglas : List Regla)
    (expl : PyDict → Resultado → String) (d : PyDict) (r : Resultado)
    (h : evaluateCore reglas expl d = .ok r) : r.errores_validacion = [] := by
  unfold evaluateCore at h
  split at h
  · unfold evaluatePaso4 at h
    split at h
    · exact absurd h (by simp)
    · unfold evaluatePaso5 at h
      split at h
      · exact absurd h (by simp)
      · unfold evaluatePaso6 at h
        split at h
        · exact absurd h (by simp)
        · cases h
          rfl
  · exact absurd h (by simp)

/-- C6: `evaluate` never lets an exception escape (it is a total Lean
function); an input failing validation yields the structurally complete
rejected result with score 0 and exactly the original validation error
list, the session state untouched; and any internal failure of the
scoring pipeline is converted into a synthetic rejected result carrying
the single string `"Error interno: ..."`. -/
theorem C6_evaluate (reglas : List Regla) (expl : PyDict → Resultado → String)
    (st : Stats) (logN : Nat) (datos : PyDict) :
    ((validate (sanitize datos)).1 = false →
        evaluate reglas expl st logN datos
          = (resultado_con_errores (validate (sanitize datos)).2, st, logN)
        ∧ (evaluate reglas expl st logN datos).1.dictamen = "RECHAZADO"
        ∧ (evaluate reglas expl st logN datos).1.score_final = 0
        ∧ (evaluate reglas expl st logN datos).1.errores_validacion
            = (validate (sanitize datos)).2)
    ∧ (∀ e, (validate (sanitize datos)).1 = true →
        evaluateCore reglas expl (sanitize datos) = .error e →
        evaluate reglas expl st logN datos
          = (resultado_con_errores ["Error interno: " ++ e], st, logN)
        ∧ (resultado_con_errores ["Error interno: " ++ e]).dictamen = "RECHAZADO"
        ∧ (resultado_con_errores ["Error interno: " ++ e]).errores_validacion.length
            = 1) := by
  constructor
  · intro h
    have hev : evaluate reglas expl st logN datos
        = (resultado_con_errores (validate (sanitize datos)).2, st, logN) := by
      unfold evaluate
      rw [if_pos h]
    exact ⟨hev, by rw [hev]; rfl, by rw [hev]; rfl, by rw [hev]; rfl⟩
  · intro e h1 h2
    have hev : evaluate reglas expl st logN datos
        = (resultado_con_errores ["Error interno: " ++ e], st, logN) := by
      unfold evaluate
      rw [if_neg (by rw [h1]; exact fun hx => absurd hx (by decide)), h2]
    exact ⟨hev, rfl, rfl⟩

theorem C6_evaluate_witness :
    evaluate [] (fun _ _ => "") ⟨0, 0, 0, 0, 0, 0⟩ 0 [("edad", .vInt 10)]
      = (resultado_con_errores (validate (sanitize [("edad", .vInt 10)])).2,
         ⟨0, 0, 0, 0, 0, 0⟩, 0)
    ∧ evaluate [] (fun _ _ => "") ⟨0, 0, 0, 0, 0, 0⟩ 0
        [("edad", .vNone), ("ingreso_mensual", .vNone), ("total_deuda_actual", .vNone),
         ("historial_crediticio", .vNone), ("antiguedad_laboral", .vNone),
         ("numero_dependientes", .vNone), ("tipo_vivienda", .vStr "Propia"),
         ("proposito_credito", .vStr "Negocio"), ("monto_credito", .vNone)]
      = (resultado_con_errores ["Error interno: " ++ "TypeError en calculate_dti"],
         ⟨0, 0, 0, 0, 0, 0⟩, 0) :=
  ⟨((C6_evaluate [] (fun _ _ => "") ⟨0, 0, 0, 0, 0, 0⟩ 0 [("edad", .vInt 10)]).1
      (by decide)).1,
   ((C6_evaluate [] (fun _ _ => "") ⟨0, 0, 0, 0, 0, 0⟩ 0
        [("edad", .vNone), ("ingreso_mensual", .vNone), ("total_deuda_actual", .vNone),
         ("historial_crediticio", .vNone), ("antiguedad_laboral", .vNone),
         ("numero_dependientes", .vNone), ("tipo_vivienda", .vStr "Propia"),
         ("proposito_credito", .vStr "Negocio"), ("monto_credito", .vNone)]).2
      "TypeError en calculate_dti" (by decide) (by rfl)).1⟩

/-- C10: an evaluation whose result carries a non-empty validation
error list leaves the session state unchanged: the counters, the stats
snapshot and the evaluation-log line count are identical before and
after the call, even though the returned decision is RECHAZADO. -/
theorem C10_estado_sin_cambio (reglas : List Regla)
    (expl : PyDict → Resultado → String) (st : Stats) (logN : Nat)
    (datos : PyDict)
    (h : (evaluate reglas expl st logN datos).1.errores_validacion ≠ []) :
    (evaluate reglas expl st logN datos).2.1 = st
    ∧ (evaluate reglas expl st logN datos).2.2 = logN
    ∧ statsSnapshot (evaluate reglas expl st logN datos).2.1 = statsSnapshot st
    ∧ (evaluate reglas expl st logN datos).1.dictamen = "RECHAZADO" := by
  by_cases hv : (validate (sanitize datos)).1 = false
  · have hev : evaluate reglas expl st logN datos
        = (resultado_con_errores (validate (sanitize datos)).2, st, logN) := by
      unfold evaluate
      rw [if_pos hv]
    rw [hev]
    exact ⟨rfl, rfl, rfl, rfl⟩
  · rcases hcore : evaluateCore reglas expl (sanitize datos) with e | r
    · have hev : evaluate reglas expl st logN datos
          = (resultado_con_errores ["Error interno: " ++ e], st, logN) := by
        unfold evaluate
        rw [if_neg hv, hcore]
      rw [hev]
      exact ⟨rfl, rfl, rfl, rfl⟩
    · have hev : evaluate reglas expl st logN datos
          = (r, actualizar_stats st r, logN + 1) := by
        unfold evaluate
        rw [if_neg hv, hcore]
      rw [hev] at h
      exact absurd (evaluateCore_ok_sin_errores reglas expl (sanitize datos) r hcore) h

theorem C10_estado_sin_cambio_witness :
    (evaluate [] (fun _ _ => "") ⟨2, 1, 1, 0, 150, 1⟩ 7 [("edad", .vInt 10)]).2.1
      = ⟨2, 1, 1, 0, 150, 1⟩
    ∧ (evaluate [] (fun _ _ => "") ⟨2, 1, 1, 0, 150, 1⟩ 7 [("edad", .vInt 10)]).2.2 = 7 :=
  ⟨(C10_estado_sin_cambio [] (fun _ _ => "") ⟨2, 1, 1, 0, 150, 1⟩ 7
      [("edad", .vInt 10)] (by decide)).1,
   (C10_estado_sin_cambio [] (fun _ _ => "") ⟨2, 1, 1, 0, 150, 1⟩ 7
      [("edad", .vInt 10)] (by decide)).2.1⟩

theorem roundTo_two_centesimas (m : Int) :
    roundTo 2 ((m : Rat) / 100) = (m : Rat) / 100 := by
  rw [roundTo, qfloor_eq]
  have h1 : ((m : Rat) / 100 * (10 : Rat) ^ 2 + 1/2) = (m : Rat) + 1/2 := by
    ring
  have h2 : ⌊(1 : Rat)/2⌋ = 0 := by norm_num
  rw [h1, Int.floor_int_add, h2]
  norm_num

theorem roundTo_four_centesimas (m : Int) :
    roundTo 4 ((m : Rat) / 100) = (m : Rat) / 100 := by
  rw [roundTo, qfloor_eq]
  have h1 : ((m : Rat) / 100 * (10 : Rat) ^ 4 + 1/2) = ((m * 100 : Int) : Rat) + 1/2 := by
    push_cast
    ring
  have h2 : ⌊(1 : Rat)/2⌋ = 0 := by norm_num
  rw [h1, Int.floor_int_add, h2]
  push_cast
  ring

theorem max_div_cien (a m : Int) :
    max ((a : Rat) / 100) ((m : Rat) / 100) = ((max a m : Int) : Rat) / 100 := by
  rcases le_total a m with h | h
  · rw [max_eq_right ((div_le_div_iff_of_pos_right (by norm_num)).mpr
        (by exact_mod_cast h)), max_eq_right h]
  · rw [max_eq_left ((div_le_div_iff_of_pos_right (by norm_num)).mpr
        (by exact_mod_cast h)), max_eq_left h]

/-- All values of the weight map are integer multiples of 0.01. -/
def Centiles (l : List (String × Rat)) : Prop :=
  ∀ p ∈ l, ∃ m : Int, p.2 = (m : Rat) / 100

theorem updateAssoc_keys (l : List (String × Rat)) (k : String) (v : Rat) :
    (updateAssoc l k v).map Prod.fst = l.map Prod.fst := by
  induction l with
  | nil => rfl
  | cons p rest ih =>
      obtain ⟨k', v'⟩ := p
      by_cases h : (k' == k) = true <;> simp [updateAssoc, h, ih]

theorem updateAssoc_centiles (l : List (String × Rat)) (k : String) (v : Rat)
    (hl : Centiles l) (hv : ∃ m : Int, v = (m : Rat) / 100) :
    Centiles (updateAssoc l k v) := by
  induction l with
  | nil => intro p hp; cases hp
  | cons q rest ih =>
      obtain ⟨k', v'⟩ := q
      have hrest : Centiles rest := fun p hp => hl p (List.mem_cons_of_mem _ hp)
      by_cases h : (k' == k) = true
      · intro p hp
        rw [updateAssoc, if_pos h] at hp
        rcases List.mem_cons.mp hp with rfl | hmem
        · exact hv
        · exact hrest p hmem
      · intro p hp
        rw [updateAssoc, if_neg h] at hp
        rcases List.mem_cons.mp hp with rfl | hmem
        · exact hl _ (List.mem_cons_self _ _)
        · exact ih hrest p hmem

theorem lookup_exists_mem {l : List (String × Rat)} {k : String} {v : Rat}
    (h : l.lookup k = some v) : ∃ k', (k', v) ∈ l := by
  induction l with
  | nil => cases h
  | cons p rest ih =>
      obtain ⟨k', v'⟩ := p
      by_cases hk : (k == k') = true
      · rw [List.lookup] at h
        simp only [hk] at h
        have hv : v' = v := Option.some.inj h
        exact ⟨k', by rw [← hv]; exact List.mem_cons_self _ _⟩
      · rw [List.lookup] at h
        simp only [hk] at h
        obtain ⟨k'', hm⟩ := ih h
        exact ⟨k'', List.mem_cons_of_mem _ hm⟩

theorem roundTo_ajuste_centesima (w : Rat) (m a : Int) (hm : w = (m : Rat)/100) :
    ∃ j : Int, roundTo 2 (max ((2 : Rat)/100) (w + ((a : Rat)/100))) = (j : Rat)/100 := by
  refine ⟨max 2 (m + a), ?_⟩
  have h1 : w + ((a : Rat)/100) = ((m + a : Int) : Rat)/100 := by
    rw [hm]
    push_cast
    ring
  rw [h1, show ((2 : Rat)/100) = (((2 : Int) : Rat))/100 by norm_num,
    max_div_cien, roundTo_two_centesimas]

theorem ajustarPeso_centiles (l : List (String × Rat)) (vc : VarCritica)
    (hl : Centiles l) : Centiles (ajustarPeso l vc) := by
  unfold ajustarPeso
  split
  · exact hl
  · split
    · exact hl
    · rename_i w hw
      obtain ⟨k', hmem⟩ := lookup_exists_mem hw
      obtain ⟨m, hm⟩ := hl _ hmem
      simp only at hm
      split_ifs with h1 h2 h3
      · exact hl
      · refine updateAssoc_centiles _ _ _ hl ?_
        obtain ⟨j, hj⟩ := roundTo_ajuste_centesima w m (-2) hm
        exact ⟨j, by rw [← hj]; norm_num⟩
      · refine updateAssoc_centiles _ _ _ hl ?_
        obtain ⟨j, hj⟩ := roundTo_ajuste_centesima w m (-1) hm
        exact ⟨j, by rw [← hj]; norm_num⟩
      · exact hl

theorem ajustarPeso_keys (l : List (String × Rat)) (vc : VarCritica) :
    (ajustarPeso l vc).map Prod.fst = l.map Prod.fst := by
  unfold ajustarPeso
  split
  · rfl
  · split
    · rfl
    · split_ifs <;> first | rfl | apply updateAssoc_keys

theorem foldl_ajustar_centiles (criticas : List VarCritica)
    (l : List (String × Rat)) (hl : Centiles l) :
    Centiles (criticas.foldl ajustarPeso l) := by
  induction criticas generalizing l with
  | nil => exact hl
  | cons vc rest ih => exact ih _ (ajustarPeso_centiles l vc hl)

theorem foldl_ajustar_keys (criticas : List VarCritica)
    (l : List (String × Rat)) :
    ((criticas.foldl ajustarPeso l).map Prod.fst) = l.map Prod.fst := by
  induction criticas generalizing l with
  | nil => rfl
  | cons vc rest ih => rw [List.foldl_cons, ih, ajustarPeso_keys]

theorem sum_of_centiles (l : List (String × Rat)) (hl : Centiles l) :
    ∃ M : Int, (l.map Prod.snd).sum = (M : Rat) / 100 := by
  induction l with
  | nil => exact ⟨0, by simp⟩
  | cons p rest ih =>
      obtain ⟨m, hm⟩ := hl p (List.mem_cons_self _ _)
      obtain ⟨M, hM⟩ := ih fun q hq => hl q (List.mem_cons_of_mem _ hq)
      refine ⟨m + M, ?_⟩
      rw [List.map_cons, List.sum_cons, hm, hM]
      push_cast
      ring

theorem updateAssoc_sum (l : List (String × Rat)) (k : String) (v w : Rat)
    (hnodup : (l.map Prod.fst).Nodup) (hmem : (k, v) ∈ l) :
    ((updateAssoc l k w).map Prod.snd).sum = (l.map Prod.snd).sum - v + w := by
  induction l with
  | nil => cases hmem
  | cons p rest ih =>
      obtain ⟨k', v'⟩ := p
      have hk'nin : k' ∉ rest.map Prod.fst := (List.nodup_cons.mp hnodup).1
      have hrestnodup : (rest.map Prod.fst).Nodup := (List.nodup_cons.mp hnodup).2
      by_cases h : (k' == k) = true
      · have hkk : k' = k := beq_iff_eq.mp h
        have hvv : v' = v := by
          rcases List.mem_cons.mp hmem with heq | hmem'
          · exact (congrArg Prod.snd heq).symm
          · exfalso
            apply hk'nin
            rw [hkk]
            exact List.mem_map.mpr ⟨(k, v), hmem', rfl⟩
        rw [updateAssoc, if_pos h]
        simp only [List.map_cons, List.sum_cons, hvv]
        ring
      · have hkk : k' ≠ k := fun hc => h (beq_iff_eq.mpr hc)
        have hmem' : (k, v) ∈ rest := by
          rcases List.mem_cons.mp hmem with heq | hmem'
          · exact absurd (congrArg Prod.fst heq) (by simpa using hkk.symm)
          · exact hmem'
        rw [updateAssoc, if_neg h]
        simp only [List.map_cons, List.sum_cons, ih hrestnodup hmem']
        ring

theorem foldl_max_mem (p : String × Rat) (l : List (String × Rat)) :
    l.foldl (fun best q => if q.2 > best.2 then q else best) p ∈ p :: l := by
  induction l generalizing p with
  | nil => exact List.mem_singleton.mpr rfl
  | cons a rest ih =>
      rw [List.foldl_cons]
      rcases List.mem_cons.mp (ih (if a.2 > p.2 then a else p)) with heq | hmem
      · rw [heq]
        split_ifs
        · exact List.mem_cons_of_mem _ (List.mem_cons_self _ _)
        · exact List.mem_cons_self _ _
      · exact List.mem_cons_of_mem _ (List.mem_cons_of_mem _ hmem)

theorem argmaxPeso_mem (l : List (String × Rat)) (p : String × Rat)
    (h : argmaxPeso l = some p) : p ∈ l := by
  cases l with
  | nil => cases h
  | cons q rest =>
      rw [argmaxPeso] at h
      have := foldl_max_mem q rest
      rw [Option.some.inj h] at this
      exact this

theorem ajustarPeso_spec (l : List (String × Rat)) (vc : VarCritica)
    (k : String) (w : Rat) (hv : var_a_peso vc.nombre = some k)
    (hw : List.lookup k l = some w) (hc : ¬ vc.criticidad < 1/2)
    (hd : vc.diff_fp_pct > 15) :
    ajustarPeso l vc = updateAssoc l k (roundTo 2 (max ((2 : Rat)/100) (w + (-2/100)))) := by
  unfold ajustarPeso
  split
  · rename_i heq
    rw [hv] at heq
    cases heq
  · rename_i k' heq
    rw [hv] at heq
    cases Option.some.inj heq
    split
    · rename_i heq2
      rw [hw] at heq2
      cases heq2
    · rename_i w' heq2
      rw [hw] at heq2
      cases Option.some.inj heq2
      rw [if_neg hc, if_pos hd]

theorem redistribuir_spec (l : List (String × Rat)) (p : String × Rat)
    (h1 : 1/1000 < |roundTo 4 (1 - (l.map Prod.snd).sum)|)
    (h2 : argmaxPeso l = some p) :
    redistribuir l
      = updateAssoc l p.1 (roundTo 2 (p.2 + roundTo 4 (1 - (l.map Prod.snd).sum))) := by
  unfold redistribuir
  rw [if_pos h1, h2]

theorem redistribuir_id (l : List (String × Rat))
    (h1 : ¬ 1/1000 < |roundTo 4 (1 - (l.map Prod.snd).sum)|) :
    redistribuir l = l := by
  unfold redistribuir
  rw [if_neg h1]

/-- C8 counterexample: loaded weights may carry more than two decimals
while still summing to 1.0; the redistribution step then rounds the
largest weight to 2 decimals and the final map misses 1.0 by 0.004,
beyond the claimed 0.001 tolerance. -/
theorem C8_counterexample :
    (([("Ingreso_Mensual", (496 : Rat)/1000), ("Edad", 25/100),
       ("Total_Deuda_Actual", 254/1000)].map Prod.snd).sum = 1)
    ∧ 1/1000 <
        |(((propose_adjustments
            [("Ingreso_Mensual", (496 : Rat)/1000), ("Edad", 25/100),
             ("Total_Deuda_Actual", 254/1000)]
            [⟨"edad", 4, 20⟩] 80).1.map Prod.snd).sum) - 1| := by
  have hmax : max ((2 : Rat)/100) (25/100 + (-2/100)) = 23/100 := by
    rw [max_eq_right (by norm_num)]
    norm_num
  have hr23 : roundTo 2 ((23 : Rat)/100) = 23/100 := by
    have h := roundTo_two_centesimas 23
    norm_num at h
    exact h
  have hstep : ajustarPeso
      [("Ingreso_Mensual", (496 : Rat)/1000), ("Edad", 25/100),
       ("Total_Deuda_Actual", 254/1000)] ⟨"edad", 4, 20⟩
      = [("Ingreso_Mensual", (496 : Rat)/1000), ("Edad", 23/100),
         ("Total_Deuda_Actual", 254/1000)] := by
    rw [ajustarPeso_spec
      [("Ingreso_Mensual", (496 : Rat)/1000), ("Edad", 25/100),
       ("Total_Deuda_Actual", 254/1000)] ⟨"edad", 4, 20⟩ "Edad" (25/100)
      rfl rfl (by norm_num) (by norm_num)]
    rw [hmax, hr23]
    rfl
  have hsuma : (([("Ingreso_Mensual", (496 : Rat)/1000), ("Edad", 23/100),
      ("Total_Deuda_Actual", 254/1000)].map Prod.snd).sum) = 98/100 := by
    simp only [List.map_cons, List.map_nil, List.sum_cons, List.sum_nil]
    norm_num
  have hdelta : roundTo 4 (1 - (98 : Rat)/100) = 2/100 := by
    rw [show (1 - (98 : Rat)/100) = ((2 : Int) : Rat)/100 by norm_num,
      roundTo_four_centesimas]
    norm_num
  have hargmax : argmaxPeso
      [("Ingreso_Mensual", (496 : Rat)/1000), ("Edad", 23/100),
       ("Total_Deuda_Actual", 254/1000)]
      = some ("Ingreso_Mensual", (496 : Rat)/1000) := by
    rw [argmaxPeso]
    simp only [List.foldl_cons, List.foldl_nil]
    rw [if_neg (by norm_num), if_neg (by norm_num)]
  have hr52 : roundTo 2 ((496 : Rat)/1000 + 2/100) = 52/100 := by
    rw [roundTo, qfloor_eq]
    norm_num
  have hred : redistribuir
      [("Ingreso_Mensual", (496 : Rat)/1000), ("Edad", 23/100),
       ("Total_Deuda_Actual", 254/1000)]
      = [("Ingreso_Mensual", (52 : Rat)/100), ("Edad", 23/100),
         ("Total_Deuda_Actual", 254/1000)] := by
    rw [redistribuir_spec _ ("Ingreso_Mensual", (496 : Rat)/1000)
        (by rw [hsuma, hdelta]; rw [abs_of_pos] <;> norm_num) hargmax]
    rw [hsuma, hdelta]
    rw [show (("Ingreso_Mensual", (496 : Rat)/1000).2 + 2/100) = ((496 : Rat)/1000 + 2/100)
      from rfl, hr52]
    rfl
  constructor
  · simp only [List.map_cons, List.map_nil, List.sum_cons, List.sum_nil]
    norm_num
  · rw [propose_adjustments]
    simp only [List.foldl_cons, List.foldl_nil]
    rw [hstep, hred]
    simp only [List.map_cons, List.map_nil, List.sum_cons, List.sum_nil]
    rw [abs_of_pos] <;> norm_num

/-- C8 (amended): when the loaded weight map has pairwise-distinct keys,
every weight an integer multiple of 0.01 (as the shipped weights.json
has) and total exactly 1.0, the weight map proposed by
`propose_adjustments` sums to exactly 1.0 (hence within 0.001).  For
maps with finer-grained weights the 0.001 tolerance can be exceeded,
see the counterexample. -/
theorem C8_propose_adjustments (pesos : List (String × Rat))
    (criticas : List VarCritica) (u : Int)
    (hnodup : (pesos.map Prod.fst).Nodup)
    (hcent : ∀ p ∈ pesos, ∃ m : Int, p.2 = (m : Rat) / 100)
    (hsum : ((pesos.map Prod.snd).sum) = 1) :
    (((propose_adjustments pesos criticas u).1.map Prod.snd).sum) = 1 := by
  rw [propose_adjustments]
  set L := criticas.foldl ajustarPeso pesos with hL
  have hLcent : Centiles L := foldl_ajustar_centiles criticas pesos hcent
  have hLkeys : L.map Prod.fst = pesos.map Prod.fst := foldl_ajustar_keys criticas pesos
  have hLnodup : (L.map Prod.fst).Nodup := by
    rw [hLkeys]
    exact hnodup
  obtain ⟨M, hM⟩ := sum_of_centiles L hLcent
  have hdelta : roundTo 4 (1 - (L.map Prod.snd).sum) = ((100 - M : Int) : Rat) / 100 := by
    rw [hM, show (1 - (M : Rat)/100) = ((100 - M : Int) : Rat)/100 by push_cast; ring,
      roundTo_four_centesimas]
  by_cases hsmall : 1/1000 < |roundTo 4 (1 - (L.map Prod.snd).sum)|
  · have hne : L ≠ [] := by
      intro hnil
      have hkeysnil : pesos.map Prod.fst = [] := by
        rw [← hLkeys, hnil]
        rfl
      have hpnil : pesos = [] := List.map_eq_nil_iff.mp hkeysnil
      rw [hpnil] at hsum
      norm_num at hsum
    obtain ⟨p, hp⟩ : ∃ p, argmaxPeso L = some p := by
      cases hl : L with
      | nil => exact absurd hl hne
      | cons a rest => exact ⟨_, rfl⟩
    have hpmem : p ∈ L := argmaxPeso_mem L p hp
    obtain ⟨mp, hmp⟩ := hLcent p hpmem
    rw [redistribuir_spec L p hsmall hp]
    have hval : roundTo 2 (p.2 + roundTo 4 (1 - (L.map Prod.snd).sum))
        = ((mp + (100 - M) : Int) : Rat) / 100 := by
      rw [hdelta, hmp, show ((mp : Rat)/100 + ((100 - M : Int) : Rat)/100)
          = ((mp + (100 - M) : Int) : Rat)/100 by push_cast; ring,
        roundTo_two_centesimas]
    have hpmem' : (p.1, p.2) ∈ L := by
      rw [Prod.mk.eta]
      exact hpmem
    rw [hval, updateAssoc_sum L p.1 p.2 _ hLnodup hpmem', hM, hmp]
    push_cast
    ring
  · rw [redistribuir_id L hsmall]
    rw [hdelta] at hsmall
    have habs : |((100 - M : Int) : Rat) / 100| ≤ 1/1000 := not_lt.mp hsmall
    have hM100 : M = 100 := by
      by_contra hMne
      have h1 : (1 : Rat) ≤ |((100 - M : Int) : Rat)| := by
        rw [← Int.cast_abs]
        have : (1 : Int) ≤ |100 - M| := Int.one_le_abs (by omega)
        exact_mod_cast this
      rw [abs_div] at habs
      have h100 : |(100 : Rat)| = 100 := by norm_num
      rw [h100] at habs
      nlinarith
    rw [hM, hM100]
    norm_num

theorem C8_propose_adjustments_witness :
    (((propose_adjustments
        [("Ingreso_Mensual", (40 : Rat)/100), ("Total_Deuda_Actual", 30/100),
         ("Edad", 30/100)]
        [⟨"edad", 4, 20⟩] 80).1.map Prod.snd).sum) = 1 := by
  apply C8_propose_adjustments
  · decide
  · intro p hp
    rcases List.mem_cons.mp hp with rfl | hp
    · exact ⟨40, by norm_num⟩
    · rcases List.mem_cons.mp hp with rfl | hp
      · exact ⟨30, by norm_num⟩
      · rcases List.mem_cons.mp hp with rfl | hp
        · exact ⟨30, by norm_num⟩
        · cases hp
  · simp only [List.map_cons, List.map_nil, List.sum_cons, List.sum_nil]
    norm_num


theorem sanitizeVal_entero (campo : String) (x : PyVal)
    (h : CAMPOS_ENTEROS.contains campo = true) :
    sanitizeVal campo x = a_entero (stripIfStr x) := by
  unfold sanitizeVal
  rw [if_pos h]

theorem sanitizeVal_numerico (campo : String) (x : PyVal)
    (h1 : CAMPOS_ENTEROS.contains campo = false)
    (h2 : CAMPOS_NUMERICOS.contains campo = true) :
    sanitizeVal campo x = a_flotante (stripIfStr x) := by
  unfold sanitizeVal
  rw [h1, h2]
  simp

theorem a_entero_str_some (s : String) (q : Rat)
    (hq : parsePyFloat (limpiarNum s) = some q) :
    a_entero (.vStr s) = .vInt (pyTrunc q) := by
  have hb : a_entero (.vStr s)
      = match parsePyFloat (limpiarNum s) with
        | some q => PyVal.vInt (pyTrunc q)
        | none => PyVal.vStr s := rfl
  rw [hb, hq]

theorem a_entero_str_none (s : String)
    (hn : parsePyFloat (limpiarNum s) = none) :
    a_entero (.vStr s) = .vStr s := by
  have hb : a_entero (.vStr s)
      = match parsePyFloat (limpiarNum s) with
        | some q => PyVal.vInt (pyTrunc q)
        | none => PyVal.vStr s := rfl
  rw [hb, hn]

theorem a_flotante_str_some (s : String) (q : Rat)
    (hq : parsePyFloat (limpiarNum s) = some q) :
    a_flotante (.vStr s) = .vFloat q := by
  have hb : a_flotante (.vStr s)
      = match parsePyFloat (limpiarNum s) with
        | some q => PyVal.vFloat q
        | none => PyVal.vStr s := rfl
  rw [hb, hq]

theorem a_flotante_str_none (s : String)
    (hn : parsePyFloat (limpiarNum s) = none) :
    a_flotante (.vStr s) = .vStr s := by
  have hb : a_flotante (.vStr s)
      = match parsePyFloat (limpiarNum s) with
        | some q => PyVal.vFloat q
        | none => PyVal.vStr s := rfl
  rw [hb, hn]

/-- C9 counterexample: the categorical coercion only upper-cases the
first character after trimming, so the fully-uppercase housing value
`"PROPIA"` is left as-is and is not mapped to the canonical `"Propia"`
even though it matches case-insensitively; and a numeric-field string
whose coercion fails is returned trimmed, not identical ("` 1-2 `"
becomes `"1-2"`). -/
theorem C9_counterexample :
    sanitize [("tipo_vivienda", .vStr "PROPIA")] = [("tipo_vivienda", .vStr "PROPIA")]
    ∧ TIPOS_VIVIENDA_VALIDOS.contains "PROPIA" = false
    ∧ capitalizar "propia" = "Propia"
    ∧ sanitize [("edad", .vStr " 1-2 ")] = [("edad", .vStr "1-2")]
    ∧ " 1-2 " ≠ "1-2" := by
  refine ⟨by decide, by decide, by decide, by decide, by decide⟩

/-- C9 (amended): `sanitize` never raises (it is a total Lean function)
and works entry by entry in insertion order; on the integer fields a
cleaned numeric string (currency symbols, separators and whitespace
stripped) parses and is truncated to `int`, on the numeric fields it
becomes a `float`; a string whose coercion fails is returned stripped
of surrounding whitespace but otherwise unchanged; the two categorical
fields are trimmed and get their first letter upper-cased (so
lowercase-initial text such as `"propia"` reaches its canonical form,
but letters beyond the first are never lowered); and the dirty
reference dict of the source tests sanitizes to its expected clean
form. -/
theorem C9_sanitize (campo : String) (s : String) (d : PyDict) (v : PyVal) :
    (campo ∈ CAMPOS_ENTEROS →
        (∀ q, parsePyFloat (limpiarNum (pyStrip s)) = some q →
            sanitizeVal campo (.vStr s) = .vInt (pyTrunc q))
        ∧ (parsePyFloat (limpiarNum (pyStrip s)) = none →
            sanitizeVal campo (.vStr s) = .vStr (pyStrip s)))
    ∧ (campo ∈ CAMPOS_NUMERICOS →
        (∀ q, parsePyFloat (limpiarNum (pyStrip s)) = some q →
            sanitizeVal campo (.vStr s) = .vFloat q)
        ∧ (parsePyFloat (limpiarNum (pyStrip s)) = none →
            sanitizeVal campo (.vStr s) = .vStr (pyStrip s)))
    ∧ (campo = "tipo_vivienda" ∨ campo = "proposito_credito" →
        sanitizeVal campo (.vStr s) = .vStr (capitalizar (pyStrip s)))
    ∧ sanitize ((campo, v) :: d) = (campo, sanitizeVal campo v) :: sanitize d
    ∧ sanitize
        [("edad", .vStr "  35  "), ("ingreso_mensual", .vStr "$25,000.00"),
         ("total_deuda_actual", .vStr "4000"), ("historial_crediticio", .vFloat 2),
         ("antiguedad_laboral", .vStr "7"), ("numero_dependientes", .vStr "1"),
         ("tipo_vivienda", .vStr "  propia  "), ("proposito_credito", .vStr "negocio"),
         ("monto_credito", .vStr "$15,000")]
      = [("edad", .vInt 35), ("ingreso_mensual", .vFloat 25000),
         ("total_deuda_actual", .vFloat 4000), ("historial_crediticio", .vInt 2),
         ("antiguedad_laboral", .vInt 7), ("numero_dependientes", .vInt 1),
         ("tipo_vivienda", .vStr "Propia"), ("proposito_credito", .vStr "Negocio"),
         ("monto_credito", .vFloat 15000)] := by
  refine ⟨fun h => ?_, fun h => ?_, fun h => ?_, rfl, ?_⟩
  · fin_cases h <;>
      exact ⟨fun q hq => by
          rw [sanitizeVal_entero _ _ (by decide),
            show stripIfStr (.vStr s) = .vStr (pyStrip s) from rfl,
            a_entero_str_some _ q hq],
        fun hn => by
          rw [sanitizeVal_entero _ _ (by decide),
            show stripIfStr (.vStr s) = .vStr (pyStrip s) from rfl,
            a_entero_str_none _ hn]⟩
  · fin_cases h <;>
      exact ⟨fun q hq => by
          rw [sanitizeVal_numerico _ _ (by decide) (by decide),
            show stripIfStr (.vStr s) = .vStr (pyStrip s) from rfl,
            a_flotante_str_some _ q hq],
        fun hn => by
          rw [sanitizeVal_numerico _ _ (by decide) (by decide),
            show stripIfStr (.vStr s) = .vStr (pyStrip s) from rfl,
            a_flotante_str_none _ hn]⟩
  · rcases h with rfl | rfl
    · unfold sanitizeVal
      rw [show CAMPOS_ENTEROS.contains "tipo_vivienda" = false from rfl,
        show CAMPOS_NUMERICOS.contains "tipo_vivienda" = false from rfl]
      simp only [Bool.false_eq_true, if_false]
      rw [if_pos (by decide)]
      rfl
    · unfold sanitizeVal
      rw [show CAMPOS_ENTEROS.contains "proposito_credito" = false from rfl,
        show CAMPOS_NUMERICOS.contains "proposito_credito" = false from rfl]
      simp only [Bool.false_eq_true, if_false]
      rw [if_neg (by decide), if_pos (by decide)]
      rfl
  · have e1 : sanitizeVal "edad" (.vStr "  35  ") = .vInt 35 := by
      rw [sanitizeVal_entero _ _ (by decide),
        show stripIfStr (.vStr "  35  ") = .vStr "35" from rfl,
        a_entero_str_some "35" (((35 : Nat) : Rat)) rfl]
      norm_num [pyTrunc]
    have e2 : sanitizeVal "ingreso_mensual" (.vStr "$25,000.00") = .vFloat 25000 := by
      rw [sanitizeVal_numerico _ _ (by decide) (by decide),
        show stripIfStr (.vStr "$25,000.00") = .vStr "$25,000.00" from rfl,
        a_flotante_str_some "$25,000.00"
          (((25000 : Nat) : Rat) + ((0 : Nat) : Rat) / (10 : Rat) ^ 2) rfl]
      norm_num
    have e3 : sanitizeVal "total_deuda_actual" (.vStr "4000") = .vFloat 4000 := by
      rw [sanitizeVal_numerico _ _ (by decide) (by decide),
        show stripIfStr (.vStr "4000") = .vStr "4000" from rfl,
        a_flotante_str_some "4000" (((4000 : Nat) : Rat)) rfl]
      norm_num
    have e4 : sanitizeVal "historial_crediticio" (.vFloat 2) = .vInt 2 := by
      rw [sanitizeVal_entero _ _ (by decide),
        show stripIfStr (.vFloat 2) = .vFloat 2 from rfl]
      unfold a_entero
      norm_num
    have e5 : sanitizeVal "antiguedad_laboral" (.vStr "7") = .vInt 7 := by
      rw [sanitizeVal_entero _ _ (by decide),
        show stripIfStr (.vStr "7") = .vStr "7" from rfl,
        a_entero_str_some "7" (((7 : Nat) : Rat)) rfl]
      norm_num [pyTrunc]
    have e6 : sanitizeVal "numero_dependientes" (.vStr "1") = .vInt 1 := by
      rw [sanitizeVal_entero _ _ (by decide),
        show stripIfStr (.vStr "1") = .vStr "1" from rfl,
        a_entero_str_some "1" (((1 : Nat) : Rat)) rfl]
      norm_num [pyTrunc]
    have e7 : sanitizeVal "tipo_vivienda" (.vStr "  propia  ") = .vStr "Propia" := by
      decide
    have e8 : sanitizeVal "proposito_credito" (.vStr "negocio") = .vStr "Negocio" := by
      decide
    have e9 : sanitizeVal "monto_credito" (.vStr "$15,000") = .vFloat 15000 := by
      rw [sanitizeVal_numerico _ _ (by decide) (by decide),
        show stripIfStr (.vStr "$15,000") = .vStr "$15,000" from rfl,
        a_flotante_str_some "$15,000" (((15000 : Nat) : Rat)) rfl]
      norm_num
    simp only [sanitize, List.map_cons, List.map_nil, e1, e2, e3, e4, e5, e6, e7, e8, e9]

theorem C9_sanitize_witness :
    sanitizeVal "edad" (.vStr " 1-2 ") = .vStr "1-2"
    ∧ sanitizeVal "tipo_vivienda" (.vStr " propia ") = .vStr "Propia" :=
  ⟨((C9_sanitize "edad" " 1-2 " [] .vNone).1 (by decide)).2 (by rfl),
   by
    have h := (C9_sanitize "tipo_vivienda" " propia " [] .vNone).2.2.1 (Or.inl rfl)
    rw [h]
    rfl⟩

end Mihac
